import Mathlib

set_option maxRecDepth 100000

/-!
Verification of the gutoe repository's natural-language specification against
a shallow embedding of its Python sources.

Conventions of the embedding:
 - Python strings are `List Char` internally, `String` at theorem boundaries.
 - Scanning functions that consume their input use an explicit `fuel`
   argument initialised with the input length by a wrapper; each step consumes
   at least one character, so `fuel = length` never runs out.  This keeps every
   definition structurally recursive and kernel-computable.
 - The file system and subprocess outcomes are passed in as explicit
   parameters (a "world"), so functions that the Python code makes depend on
   the outside world become pure functions of that world.
-/

/-! ## Python string primitives -/

/-- Auxiliary scanner for `pyReplace` (Python `str.replace`): replaces
non-overlapping occurrences of `old` left to right.  `fuel` bounds the number
of scanning steps; each step consumes at least one character. -/
def pyReplaceGo (old new : List Char) : Nat → List Char → List Char
  | _, [] => []
  | 0, s => s
  | Nat.succ n, c :: rest =>
    if old ≠ [] ∧ old.isPrefixOf (c :: rest) then
      new ++ pyReplaceGo old new n ((c :: rest).drop old.length)
    else
      c :: pyReplaceGo old new n rest

/-- Python `str.replace old new`: replace every non-overlapping occurrence of
`old` by `new`, scanning left to right.  (For `old = ""` Python would insert
`new` between all characters; the repository never calls it that way and the
embedding leaves the string unchanged in that case.) -/
def pyReplace (old new s : List Char) : List Char :=
  pyReplaceGo old new s.length s

/-- The suffix of `l` strictly after the first occurrence of `ch`, or `none`
if `ch` does not occur. -/
def afterChar (ch : Char) : List Char → Option (List Char)
  | [] => none
  | c :: rest => if c = ch then some rest else afterChar ch rest

/-- `[a-zA-Z]` of the regexes in `latex_converter.py`. -/
def isAsciiAlpha (c : Char) : Bool :=
  ('a' ≤ c ∧ c ≤ 'z') ∨ ('A' ≤ c ∧ c ≤ 'Z')

/-- `[a-zA-Z0-9]` of the regexes in `latex_converter.py`. -/
def isAsciiAlnum (c : Char) : Bool :=
  isAsciiAlpha c ∨ ('0' ≤ c ∧ c ≤ '9')

/-- `[^{}]` of the regexes in `latex_converter.py`. -/
def nonBrace (c : Char) : Bool :=
  ¬ (c = '\x7b' ∨ c = '\x7d')

/-! ## latex_converter.py : latex_to_unicode

Faithful embedding of `src/unified/utils/latex_converter.py`.  The source file
is stored double-encoded, so the replacement values below are exactly the
character sequences Python obtains when importing the module (the UTF-8 bytes
of each intended symbol decoded as code-page 437 and stored again as UTF-8);
they are transcribed codepoint by codepoint from the file. -/

/-- The `greek_map` dictionary of `latex_to_unicode`, in insertion order. -/
def greek_map : List (String × String) :=
  [("\\alpha", "\u256c\u2592"), ("\\beta", "\u256c\u2593"), ("\\gamma", "\u256c\u2502"), ("\\delta", "\u256c\u2524"),
   ("\\epsilon", "\u256c\u0445"), ("\\varepsilon", "\u256c\u0445"), ("\\zeta", "\u256c\u0425"), ("\\eta", "\u256c\u0438"),
   ("\\theta", "\u256c\u0418"), ("\\vartheta", "\u00a4\u0409"), ("\\iota", "\u256c\u2563"), ("\\kappa", "\u256c\u2551"),
   ("\\lambda", "\u256c\u2557"), ("\\mu", "\u256c\u255d"), ("\\nu", "\u256c\u0439"), ("\\xi", "\u256c\u0419"),
   ("\\pi", "\u00a4\u0452"), ("\\varpi", "\u00a4\u045c"), ("\\rho", "\u00a4\u0402"), ("\\varrho", "\u00a4\u2592"),
   ("\\sigma", "\u00a4\u0403"), ("\\varsigma", "\u00a4\u0453"), ("\\tau", "\u00a4\u0451"), ("\\upsilon", "\u00a4\u0401"),
   ("\\phi", "\u00a4\u0454"), ("\\varphi", "\u00a4\u0454"), ("\\chi", "\u00a4\u0404"), ("\\psi", "\u00a4\u0455"),
   ("\\omega", "\u00a4\u0405"), ("\\Gamma", "\u256c\u040a"), ("\\Delta", "\u256c\u045b"), ("\\Theta", "\u256c\u045e"),
   ("\\Lambda", "\u256c\u040f"), ("\\Xi", "\u256c\u044a"), ("\\Pi", "\u256c\u0430"), ("\\Sigma", "\u256c\u0411"),
   ("\\Upsilon", "\u256c\u0426"), ("\\Phi", "\u256c\u0434"), ("\\Psi", "\u256c\u0435"), ("\\Omega", "\u256c\u0415")]

/-- The `math_symbols` dictionary of `latex_to_unicode`, in insertion order. -/
def math_symbols : List (String × String) :=
  [("\\times", "\u251c\u040c"), ("\\div", "\u251c\u0438"), ("\\pm", "\u252c\u2592"), ("\\mp", "\u0420\u0455\u040a"),
   ("\\cdot", "\u252c\u0438"), ("\\leq", "\u0420\u0405\u0446"), ("\\geq", "\u0420\u0405\u0426"), ("\\neq", "\u0420\u0405\u0430"),
   ("\\approx", "\u0420\u0405\u0455"), ("\\equiv", "\u0420\u0405\u0410"), ("\\cong", "\u0420\u0405\u0401"), ("\\sim", "\u0420\u0455\u255d"),
   ("\\propto", "\u0420\u0455\u042e"), ("\\infty", "\u0420\u0455\u044a"), ("\\partial", "\u0420\u0455\u0453"), ("\\nabla", "\u0420\u0455\u0404"),
   ("\\forall", "\u0420\u0455\u0452"), ("\\exists", "\u0420\u0455\u0403"), ("\\nexists", "\u0420\u0455\u0451"), ("\\in", "\u0420\u0455\u0455"),
   ("\\notin", "\u0420\u0455\u0405"), ("\\subset", "\u0420\u0456\u0453"), ("\\supset", "\u0420\u0456\u0403"), ("\\cup", "\u0420\u0455\u0444"),
   ("\\cap", "\u0420\u0455\u0415"), ("\\emptyset", "\u0420\u0455\u0401"), ("\\therefore", "\u0420\u0455\u2524"), ("\\because", "\u0420\u0455\u0445"),
   ("\\hbar", "\u0420\u0451\u0408"), ("\\ell", "\u0420\u0451\u040a"), ("\\Re", "\u0420\u0451\u044e"), ("\\Im", "\u0420\u0451\u0409"),
   ("\\aleph", "\u0420\u0451\u0445"), ("\\wp", "\u0420\u0451\u045e"), ("\\otimes", "\u0420\u0456\u040c"), ("\\oplus", "\u0420\u0456\u040b"),
   ("\\circ", "\u0420\u0455\u045e"), ("\\bullet", "\u0420\u0452\u0431"), ("\\star", "\u0420\u0406\u0454"), ("\\dagger", "\u0420\u0452\u0430"),
   ("\\ddagger", "\u0420\u0452\u0410"), ("\\vee", "\u0420\u0455\u0435"), ("\\wedge", "\u0420\u0455\u0414"), ("\\langle", "\u0420\u042a\u0435"),
   ("\\rangle", "\u0420\u042a\u0415"), ("\\int", "\u0420\u0455\u0424"), ("\\oint", "\u0420\u0455\u00ab"), ("\\sum", "\u0420\u0455\u0409"),
   ("\\prod", "\u0420\u0455\u0408"), ("\\coprod", "\u0420\u0455\u0459"), ("\\sqrt", "\u0420\u0455\u045f"), ("\\surd", "\u0420\u0455\u045f"),
   ("\\top", "\u0420\u0456\u0446"), ("\\bot", "\u0420\u0456\u0426"), ("\\|", "\u0420\u0452\u045c"), ("\\angle", "\u0420\u0455\u0430"),
   ("\\triangle", "\u0420\u045c\u2502"), ("\\backslash", "\\"), ("\\prime", "\u0420\u0452\u2593"), ("\\rightarrow", "\u0420\u0454\u045a"),
   ("\\leftarrow", "\u0420\u0454\u0459"), ("\\leftrightarrow", "\u0420\u0454\u045b"), ("\\Rightarrow", "\u0420\u0404\u045a"), ("\\Leftarrow", "\u0420\u0404\u0459"),
   ("\\Leftrightarrow", "\u0420\u0404\u045b"), ("\\uparrow", "\u0420\u0454\u0409"), ("\\downarrow", "\u0420\u0454\u040a"), ("\\updownarrow", "\u0420\u0454\u040b"),
   ("\\mapsto", "\u0420\u0454\u0434"), ("\\to", "\u0420\u0454\u045a"), ("\\perp", "\u0420\u0456\u0426")]

/-- The `superscripts` dictionary of `latex_to_unicode`, in insertion order. -/
def superscripts : List (Char × String) :=
  [('0', "\u0420\u0402\u2591"), ('1', "\u252c\u2563"), ('2', "\u252c\u2593"), ('3', "\u252c\u2502"),
   ('4', "\u0420\u0402\u2524"), ('5', "\u0420\u0402\u0445"), ('6', "\u0420\u0402\u0425"), ('7', "\u0420\u0402\u0438"),
   ('8', "\u0420\u0402\u0418"), ('9', "\u0420\u0402\u2563"), ('+', "\u0420\u0402\u2551"), ('-', "\u0420\u0402\u2557"),
   ('=', "\u0420\u0402\u255d"), ('(', "\u0420\u0402\u0439"), (')', "\u0420\u0402\u0419"), ('i', "\u0420\u0402\u2592"),
   ('n', "\u0420\u0402\u2510"), ('a', "\u0440\u0445\u0403"), ('b', "\u0440\u0445\u0404"), ('c', "\u0440\u0425\u044e"),
   ('d', "\u0440\u0445\u0455"), ('e', "\u0440\u0445\u0405"), ('f', "\u0440\u0425\u0430"), ('g', "\u0440\u0445\u0407"),
   ('h', "\u2569\u2591"), ('j', "\u2569\u2593"), ('k', "\u0440\u0445\u0408"), ('l', "\u2566\u0410"),
   ('m', "\u0440\u0445\u0459"), ('o', "\u0440\u0445\u045a"), ('p', "\u0440\u0445\u045c"), ('r', "\u2569\u2502"),
   ('s', "\u2566\u0431"), ('t', "\u0440\u0445\u040c"), ('u', "\u0440\u0445\u045e"), ('v', "\u0440\u0445\u040f"),
   ('w', "\u2569\u0438"), ('x', "\u2566\u0411"), ('y', "\u2569\u0418"), ('z', "\u0440\u0425\u2557")]

/-- The `subscripts` dictionary of `latex_to_unicode`, in insertion order. -/
def subscripts : List (Char × String) :=
  [('0', "\u0420\u0453\u0452"), ('1', "\u0420\u0453\u0402"), ('2', "\u0420\u0453\u0453"), ('3', "\u0420\u0453\u0403"),
   ('4', "\u0420\u0453\u0451"), ('5', "\u0420\u0453\u0401"), ('6', "\u0420\u0453\u0454"), ('7', "\u0420\u0453\u0404"),
   ('8', "\u0420\u0453\u0455"), ('9', "\u0420\u0453\u0405"), ('+', "\u0420\u0453\u0456"), ('-', "\u0420\u0453\u0406"),
   ('=', "\u0420\u0453\u0457"), ('(', "\u0420\u0453\u0407"), (')', "\u0420\u0453\u0458"), ('a', "\u0420\u0453\u0459"),
   ('e', "\u0420\u0453\u0409"), ('i', "\u0440\u0445\u0431"), ('j', "\u0420\u2592\u255d"), ('o', "\u0420\u0453\u045a"),
   ('r', "\u0440\u0445\u0411"), ('u', "\u0440\u0445\u0446"), ('v', "\u0440\u0445\u0426"), ('x', "\u0420\u0453\u040a")]

/-- `dict.get c` with fallback, over an association list (Python's
`table.get(char, default)`). -/
def charTableGet (table : List (Char × String)) (c : Char) : Option (List Char) :=
  (table.find? (fun p => p.1 = c)).map (fun p => p.2.data)

/-- Apply a dictionary of string replacements in insertion order
(`for latex, unicode in table.items(): result = result.replace(...)`). -/
def applyReplacements (table : List (String × String)) (s : List Char) : List Char :=
  table.foldl (fun acc p => pyReplace p.1.data p.2.data acc) s

/-- Match `\begin\x7b[^\x7d]*\x7d` or `\end\x7b[^\x7d]*\x7d` at the head of
`s`; returns the suffix after the match. -/
def envMatch (s : List Char) : Option (List Char) :=
  if ("\\begin\x7b".data).isPrefixOf s then afterChar '\x7d' (s.drop 7)
  else if ("\\end\x7b".data).isPrefixOf s then afterChar '\x7d' (s.drop 5)
  else none

/-- Scanner for `re.sub` removing LaTeX environment delimiters. -/
def removeEnvsGo : Nat → List Char → List Char
  | _, [] => []
  | 0, s => s
  | Nat.succ n, c :: rest =>
    match envMatch (c :: rest) with
    | some after => removeEnvsGo n after
    | none => c :: removeEnvsGo n rest

/-- `re.sub(r'\\begin\\\x7b[^\x7d]*\\\x7d|\\end\\\x7b[^\x7d]*\\\x7d', '', s)`. -/
def removeEnvs (s : List Char) : List Char :=
  removeEnvsGo s.length s

/-- Match `^\x7b[^\x7b\x7d]*\x7d` at the head; returns (content, suffix). -/
def braceGroupMatch (mark : Char) (s : List Char) : Option (List Char × List Char) :=
  match s with
  | c1 :: c2 :: rest =>
    if c1 = mark ∧ c2 = '\x7b' then
      let content := rest.takeWhile nonBrace
      match rest.dropWhile nonBrace with
      | '\x7d' :: after => some (content, after)
      | _ => none
    else none
  | _ => none

/-- Scanner for the braced superscript/subscript passes: each matched group's
characters are mapped through `table.get(char, char)`. -/
def braceMarkGo (mark : Char) (table : List (Char × String)) : Nat → List Char → List Char
  | _, [] => []
  | 0, s => s
  | Nat.succ n, c :: rest =>
    match braceGroupMatch mark (c :: rest) with
    | some (content, after) =>
      (content.flatMap (fun ch => (charTableGet table ch).getD [ch])) ++
        braceMarkGo mark table n after
    | none => c :: braceMarkGo mark table n rest

/-- `re.sub(r'\^\\\x7b([^\x7b\x7d]*)\\\x7d', replace_superscript, s)` (and the
subscript analogue for `mark = '_'`). -/
def braceMarkSub (mark : Char) (table : List (Char × String)) (s : List Char) : List Char :=
  braceMarkGo mark table s.length s

/-- Scanner for the simple superscript/subscript passes
(`\^([a-zA-Z0-9])` with replacement `table.get(char, mark + char)`). -/
def simpleMarkGo (mark : Char) (table : List (Char × String)) : Nat → List Char → List Char
  | _, [] => []
  | 0, s => s
  | Nat.succ n, c :: rest =>
    match rest with
    | c2 :: rest2 =>
      if c = mark ∧ isAsciiAlnum c2 then
        ((charTableGet table c2).getD [mark, c2]) ++ simpleMarkGo mark table n rest2
      else
        c :: simpleMarkGo mark table n rest
    | [] => [c]

/-- `re.sub(r'\^([a-zA-Z0-9])', replace_simple_superscript, s)` (and the
subscript analogue). -/
def simpleMarkSub (mark : Char) (table : List (Char × String)) (s : List Char) : List Char :=
  simpleMarkGo mark table s.length s

/-- The replacement text of `replace_fraction` (the three characters between
`)` and `(` are the file's double-encoded form of the fraction slash). -/
def fracReplacement (num den : List Char) : List Char :=
  "(".data ++ num ++ ")\u0420\u0402\u0451(".data ++ den ++ ")".data

/-- Match `\frac\x7b[^\x7b\x7d]*\x7d\x7b[^\x7b\x7d]*\x7d` at the head;
returns (numerator, denominator, suffix). -/
def fracMatch (s : List Char) : Option (List Char × List Char × List Char) :=
  if ("\\frac\x7b".data).isPrefixOf s then
    let rest := s.drop 6
    let num := rest.takeWhile nonBrace
    match rest.dropWhile nonBrace with
    | '\x7d' :: '\x7b' :: rest2 =>
      let den := rest2.takeWhile nonBrace
      match rest2.dropWhile nonBrace with
      | '\x7d' :: after => some (num, den, after)
      | _ => none
    | _ => none
  else none

/-- Scanner for one `re.sub(r'\\frac\\\x7b([^\x7b\x7d]*)\\\x7d\\\x7b([^\x7b\x7d]*)\\\x7d',
replace_fraction, s)` pass. -/
def fracSubstGo : Nat → List Char → List Char
  | _, [] => []
  | 0, s => s
  | Nat.succ n, c :: rest =>
    match fracMatch (c :: rest) with
    | some (num, den, after) => fracReplacement num den ++ fracSubstGo n after
    | none => c :: fracSubstGo n rest

/-- One global substitution pass for `\frac` fractions. -/
def fracSubst (s : List Char) : List Char :=
  fracSubstGo s.length s

/-- Python's substring test `pat in s`. -/
def hasInfix (pat : List Char) : List Char → Bool
  | [] => pat.isEmpty
  | c :: rest => pat.isPrefixOf (c :: rest) || hasInfix pat rest

/-- `'\\frac\x7b' in result` — the guard of the while loop. -/
def containsFrac (s : List Char) : Bool :=
  hasInfix ("\\frac\x7b".data) s

/-- The `while '\\frac\x7b' in result:` loop of `latex_to_unicode`, with an
iteration budget.  The Python loop has no budget; `none` means the budget was
exhausted while the guard still held, so the Python loop would still be
running after that many iterations. -/
def fracLoop : Nat → List Char → Option (List Char)
  | 0, s => if containsFrac s then none else some s
  | Nat.succ n, s => if containsFrac s then fracLoop n (fracSubst s) else some s

/-- Match `\sqrt\x7b[^\x7b\x7d]*\x7d` at the head; returns (content, suffix). -/
def sqrtMatch (s : List Char) : Option (List Char × List Char) :=
  if ("\\sqrt\x7b".data).isPrefixOf s then
    let rest := s.drop 6
    let content := rest.takeWhile nonBrace
    match rest.dropWhile nonBrace with
    | '\x7d' :: after => some (content, after)
    | _ => none
  else none

/-- Scanner for the square-root pass (`replace_sqrt`). -/
def sqrtSubstGo : Nat → List Char → List Char
  | _, [] => []
  | 0, s => s
  | Nat.succ n, c :: rest =>
    match sqrtMatch (c :: rest) with
    | some (content, after) =>
      "\u0420\u0455\u045f(".data ++ content ++ ")".data ++ sqrtSubstGo n after
    | none => c :: sqrtSubstGo n rest

/-- `re.sub(r'\\sqrt\\\x7b([^\x7b\x7d]*)\\\x7d', replace_sqrt, s)`. -/
def sqrtSubst (s : List Char) : List Char :=
  sqrtSubstGo s.length s

/-- Scanner for `re.sub(r'\\[a-zA-Z]+', '', s)` — remove remaining LaTeX
commands (a backslash followed by a maximal nonempty run of letters). -/
def removeCmdsGo : Nat → List Char → List Char
  | _, [] => []
  | 0, s => s
  | Nat.succ n, c :: rest =>
    match rest with
    | c2 :: rest2 =>
      if c = '\\' ∧ isAsciiAlpha c2 then
        removeCmdsGo n (rest2.dropWhile isAsciiAlpha)
      else
        c :: removeCmdsGo n rest
    | [] => [c]

/-- Remove remaining LaTeX commands. -/
def removeCmds (s : List Char) : List Char :=
  removeCmdsGo s.length s

/-- `re.sub(r'\\\x7b|\\\x7d', '', s)` — remove every remaining brace. -/
def removeBraces (s : List Char) : List Char :=
  s.filter nonBrace

/-- Everything `latex_to_unicode` does before its `while` loop: environment
removal, alignment/line-break cleanup, the two symbol tables, the four
superscript/subscript passes and the first fraction pass. -/
def latexPreLoop (s : List Char) : List Char :=
  let r := removeEnvs s
  let r := pyReplace "&=".data "=".data r
  let r := pyReplace "&".data "".data r
  let r := pyReplace "\\\\".data ", ".data r
  let r := applyReplacements greek_map r
  let r := applyReplacements math_symbols r
  let r := braceMarkSub '^' superscripts r
  let r := simpleMarkSub '^' superscripts r
  let r := braceMarkSub '_' subscripts r
  let r := simpleMarkSub '_' subscripts r
  fracSubst r

/-- Everything `latex_to_unicode` does after its `while` loop: the square-root
pass, command removal, and brace removal. -/
def latexPostLoop (s : List Char) : List Char :=
  removeBraces (removeCmds (sqrtSubst s))

/-- `latex_to_unicode` of `src/unified/utils/latex_converter.py`, with an
iteration budget for its unbounded `while` loop.  `latex_to_unicode fuel s =
some out` means the Python function returns `out` within `fuel` iterations of
the loop; if the result is `none` for every `fuel`, the Python function never
returns. -/
def latex_to_unicode (fuel : Nat) (s : String) : Option String :=
  (fracLoop fuel (latexPreLoop s.data)).map (fun r => String.mk (latexPostLoop r))

/-! ### Lemmas about the fraction loop -/

/-- If one substitution pass leaves a string containing `\frac\x7b` unchanged,
the while loop never finishes, whatever the budget. -/
theorem fracLoop_stuck (s : List Char) (hfix : fracSubst s = s)
    (hin : containsFrac s = true) : ∀ n, fracLoop n s = none := by
  intro n
  induction n with
  | zero => simp [fracLoop, hin]
  | succ n ih => simp [fracLoop, hin, hfix, ih]

/-- If after `n` substitution passes no `\frac\x7b` remains, the loop finishes
within budget `n`. -/
theorem fracLoop_isSome_of_iterate (n : Nat) (s : List Char)
    (h : containsFrac (fracSubst^[n] s) = false) : (fracLoop n s).isSome := by
  induction n generalizing s with
  | zero => simp [fracLoop, Function.iterate_zero_apply] at h ⊢; simp [h]
  | succ n ih =>
    by_cases hs : containsFrac s = true
    · rw [Function.iterate_succ_apply] at h
      simpa [fracLoop, hs] using ih (fracSubst s) h
    · simp at hs
      simp [fracLoop, hs]

/-! ### Claims C3 and C10 -/

/-- Claim C3, counterexample: `latex_to_unicode` is not a terminating
transform for every input.  On the input `"\frac\x7ba\x7d"` (an unbalanced
fraction) the while loop's guard holds while the substitution pass is a
no-op, so no iteration budget ever suffices: the Python loop runs forever. -/
theorem latex_to_unicode_not_total :
    ¬ ∃ fuel, (latex_to_unicode fuel "\\frac\x7ba\x7d").isSome := by
  rintro ⟨fuel, h⟩
  have hpre : latexPreLoop "\\frac\x7ba\x7d".data = "\\frac\x7ba\x7d".data := by decide
  have hfix : fracSubst "\\frac\x7ba\x7d".data = "\\frac\x7ba\x7d".data := by decide
  have hin : containsFrac "\\frac\x7ba\x7d".data = true := by decide
  have hnone := fracLoop_stuck _ hfix hin fuel
  rw [latex_to_unicode, hpre, hnone] at h
  simp at h

/-- Claim C3, amended: the rewriting of remaining `\frac\x7b` occurrences
terminates exactly on those inputs where iterating the substitution pass
eventually eliminates every `\frac\x7b`; for every input string with that
property (in particular every input that reaches the loop with no `\frac\x7b`
left), `latex_to_unicode` returns within some iteration budget.  It is not
total: on unbalanced inputs such as `"\frac\x7ba\x7d"` the loop never exits. -/
theorem latex_to_unicode_terminates_of_frac_eliminated (s : String)
    (h : ∃ n, containsFrac (fracSubst^[n] (latexPreLoop s.data)) = false) :
    ∃ fuel, (latex_to_unicode fuel s).isSome := by
  obtain ⟨n, hn⟩ := h
  refine ⟨n, ?_⟩
  rw [latex_to_unicode]
  have := fracLoop_isSome_of_iterate n (latexPreLoop s.data) hn
  simp [Option.isSome_map]
  exact this

/-- Witness for the amended Claim C3 at the concrete input `"x^2"`. -/
theorem latex_to_unicode_terminates_witness :
    ∃ fuel, (latex_to_unicode fuel "x^2").isSome :=
  latex_to_unicode_terminates_of_frac_eliminated "x^2" ⟨0, by decide⟩

/-- Claim C10: whenever `latex_to_unicode` terminates, its result contains no
brace characters — the final cleanup pass filters every remaining `\x7b` and
`\x7d` after all substitutions. -/
theorem latex_to_unicode_result_no_braces (fuel : Nat) (s out : String)
    (h : latex_to_unicode fuel s = some out) :
    ∀ c ∈ out.data, c ≠ '\x7b' ∧ c ≠ '\x7d' := by
  intro c hc
  rw [latex_to_unicode, Option.map_eq_some'] at h
  obtain ⟨r, _, hr⟩ := h
  rw [← hr] at hc
  have hcmem : c ∈ latexPostLoop r := hc
  rw [latexPostLoop, removeBraces, List.mem_filter] at hcmem
  have := hcmem.2
  simp [nonBrace] at this
  exact ⟨this.1, this.2⟩

/-- Witness for Claim C10 at the concrete input `"a\x7bb\x7d"`, on which
`latex_to_unicode` returns `"ab"` with budget 0: neither returned character
is a brace. -/
theorem latex_to_unicode_result_no_braces_witness :
    ('a' ≠ '\x7b' ∧ 'a' ≠ '\x7d') ∧ ('b' ≠ '\x7b' ∧ 'b' ≠ '\x7d') :=
  ⟨latex_to_unicode_result_no_braces 0 "a\x7bb\x7d" "ab" (by decide) 'a' (by decide),
   latex_to_unicode_result_no_braces 0 "a\x7bb\x7d" "ab" (by decide) 'b' (by decide)⟩

/-! ## Python exceptions and JSON values

The JSON model follows Python's `json` module: objects keep insertion order,
a duplicated key keeps its first position but the last value, integer
literals load as Python ints and other numbers as floats (idealised as
rationals; the repository's data contains no floats). -/

/-- The Python exception kinds the embedded code can raise or catch. -/
inductive PyErr where
  | valueError (msg : String)
  | typeError (msg : String)
  | overflowError (msg : String)
  | attributeError (msg : String)
  | keyError (msg : String)
deriving DecidableEq

/-- A JSON value as produced by `json.loads` / consumed by `json.dumps`. -/
inductive Json where
  | null : Json
  | bool (b : Bool) : Json
  | int (z : ℤ) : Json
  | num (q : ℚ) : Json
  | str (s : String) : Json
  | arr (xs : List Json) : Json
  | obj (fields : List (String × Json)) : Json

/-- JSON whitespace (the characters `json.loads` skips between tokens). -/
def isJsonWs (c : Char) : Bool :=
  c = ' ' ∨ c = '\t' ∨ c = '\n' ∨ c = '\r'

/-- Skip JSON whitespace. -/
def skipWs (l : List Char) : List Char :=
  l.dropWhile isJsonWs

/-- ASCII digit. -/
def isDigitChar (c : Char) : Bool :=
  '0' ≤ c ∧ c ≤ '9'

/-- Hex digit value of a character, if any. -/
def hexVal (c : Char) : Option Nat :=
  if '0' ≤ c ∧ c ≤ '9' then some (c.toNat - '0'.toNat)
  else if 'a' ≤ c ∧ c ≤ 'f' then some (c.toNat - 'a'.toNat + 10)
  else if 'A' ≤ c ∧ c ≤ 'F' then some (c.toNat - 'A'.toNat + 10)
  else none

/-- Insert a key into a JSON object under Python dict semantics: an existing
key keeps its position and gets the new value, a new key is appended. -/
def upsertField (fields : List (String × Json)) (k : String) (v : Json) :
    List (String × Json) :=
  if fields.any (fun p => p.1 = k) then
    fields.map (fun p => if p.1 = k then (k, v) else p)
  else fields ++ [(k, v)]

/-- Scanner for the body of a JSON string literal (after the opening quote):
returns the decoded content and the input after the closing quote.  Surrogate
pairs in `\uXXXX` escapes are not combined (the repository's data has none). -/
def parseStringBody : Nat → List Char → Option (List Char × List Char)
  | 0, _ => none
  | _ + 1, [] => none
  | n + 1, c :: rest =>
    if c = '"' then some ([], rest)
    else if c = '\\' then
      match rest with
      | [] => none
      | e :: rest2 =>
        let decoded : Option (Char × List Char) :=
          if e = '"' then some ('"', rest2)
          else if e = '\\' then some ('\\', rest2)
          else if e = '/' then some ('/', rest2)
          else if e = 'b' then some ('\x08', rest2)
          else if e = 'f' then some ('\x0c', rest2)
          else if e = 'n' then some ('\n', rest2)
          else if e = 'r' then some ('\r', rest2)
          else if e = 't' then some ('\t', rest2)
          else if e = 'u' then
            match rest2 with
            | h1 :: h2 :: h3 :: h4 :: rest3 =>
              match hexVal h1, hexVal h2, hexVal h3, hexVal h4 with
              | some v1, some v2, some v3, some v4 =>
                some (Char.ofNat (((v1 * 16 + v2) * 16 + v3) * 16 + v4), rest3)
              | _, _, _, _ => none
            | _ => none
          else none
        match decoded with
        | some (ch, rest') =>
          (parseStringBody n rest').map (fun p => (ch :: p.1, p.2))
        | none => none
    else if c.toNat < 32 then none
    else (parseStringBody n rest).map (fun p => (c :: p.1, p.2))

/-- Digits of a JSON integer part / fraction / exponent. -/
def takeDigits (l : List Char) : List Char × List Char :=
  (l.takeWhile isDigitChar, l.dropWhile isDigitChar)

/-- Numeric value of a digit string. -/
def digitsToNat (ds : List Char) : Nat :=
  ds.foldl (fun acc c => acc * 10 + (c.toNat - '0'.toNat)) 0

/-- Parse a JSON number at the head of the input (JSON grammar:
`-?(0|[1-9][0-9]*)(\.[0-9]+)?([eE][+-]?[0-9]+)?`); integer literals become
`Json.int`, others `Json.num`. -/
def parseNumber (l : List Char) : Option (Json × List Char) :=
  let (neg, l1) := match l with
    | '-' :: rest => (true, rest)
    | _ => (false, l)
  let ipart : Option (List Char × List Char) := match l1 with
    | '0' :: rest => some (['0'], rest)
    | c :: _ => if isDigitChar c then some (takeDigits l1) else none
    | [] => none
  match ipart with
  | none => none
  | some (ids, l2) =>
    let fpart : Option (List Char × List Char) := match l2 with
      | '.' :: rest =>
        match takeDigits rest with
        | ([], _) => none
        | (ds, l3) => some (ds, l3)
      | _ => some ([], l2)
    match fpart with
    | none => none
    | some (fds, l3) =>
      let epart : Option (Option ℤ × List Char) := match l3 with
        | e :: rest =>
          if e = 'e' ∨ e = 'E' then
            let (eneg, rest2) := match rest with
              | '+' :: r => (false, r)
              | '-' :: r => (true, r)
              | _ => (false, rest)
            match takeDigits rest2 with
            | ([], _) => none
            | (eds, l4) =>
              some (some (if eneg then -(digitsToNat eds : ℤ) else (digitsToNat eds : ℤ)), l4)
          else some (none, l3)
        | [] => some (none, l3)
      match epart with
      | none => none
      | some (expo, l5) =>
        if fds.isEmpty ∧ expo.isNone then
          let z : ℤ := if neg then -(digitsToNat ids : ℤ) else (digitsToNat ids : ℤ)
          some (Json.int z, l5)
        else
          let mant : ℚ := (digitsToNat ids : ℚ) +
            (digitsToNat fds : ℚ) / ((10 : ℚ) ^ fds.length)
          let q0 : ℚ := mant * (10 : ℚ) ^ (expo.getD 0)
          some (Json.num (if neg then -q0 else q0), l5)

mutual

/-- Parse a JSON value at the head of the input. -/
def parseValue : Nat → List Char → Option (Json × List Char)
  | 0, _ => none
  | _ + 1, [] => none
  | n + 1, c :: rest =>
    if c = '\x7b' then parseObj n (skipWs rest) []
    else if c = '[' then parseArr n (skipWs rest) []
    else if c = '"' then
      (parseStringBody (rest.length + 1) rest).map
        (fun p => (Json.str (String.mk p.1), p.2))
    else if c = 't' then
      if ("rue".data).isPrefixOf rest then some (Json.bool true, rest.drop 3) else none
    else if c = 'f' then
      if ("alse".data).isPrefixOf rest then some (Json.bool false, rest.drop 4) else none
    else if c = 'n' then
      if ("ull".data).isPrefixOf rest then some (Json.null, rest.drop 3) else none
    else if c = '-' ∨ isDigitChar c then parseNumber (c :: rest)
    else none

/-- Parse the members of a JSON object (input begins after `\x7b`, whitespace
already skipped; `acc` holds the fields parsed so far). -/
def parseObj (n : Nat) (l : List Char) (acc : List (String × Json)) :
    Option (Json × List Char) :=
  match n, l with
  | _, '\x7d' :: rest =>
    if acc.isEmpty then some (Json.obj acc, rest) else none
  | 0, _ => none
  | n + 1, '"' :: rest =>
    match parseStringBody (rest.length + 1) rest with
    | none => none
    | some (key, rest2) =>
      match skipWs rest2 with
      | ':' :: rest3 =>
        match parseValue n (skipWs rest3) with
        | none => none
        | some (v, rest4) =>
          let acc' := upsertField acc (String.mk key) v
          match skipWs rest4 with
          | ',' :: rest5 =>
            match skipWs rest5 with
            | '"' :: rest6 => parseObj n ('"' :: rest6) acc'
            | _ => none
          | '\x7d' :: rest5 => some (Json.obj acc', rest5)
          | _ => none
      | _ => none
  | _, _ => none

/-- Parse the elements of a JSON array (input begins after `[`, whitespace
already skipped; `acc` holds the reversed elements parsed so far). -/
def parseArr (n : Nat) (l : List Char) (acc : List Json) :
    Option (Json × List Char) :=
  match n, l with
  | _, ']' :: rest =>
    if acc.isEmpty then some (Json.arr acc.reverse, rest) else none
  | 0, _ => none
  | n + 1, l =>
    match parseValue n l with
    | none => none
    | some (v, rest) =>
      match skipWs rest with
      | ',' :: rest2 => parseArr n (skipWs rest2) (v :: acc)
      | ']' :: rest2 => some (Json.arr (v :: acc).reverse, rest2)
      | _ => none

end

/-- `json.loads`: parse a complete JSON document, requiring only whitespace
after the value; `none` models a raised `json.JSONDecodeError`. -/
def jsonLoads (s : String) : Option Json :=
  match parseValue (s.data.length + 1) (skipWs s.data) with
  | some (v, rest) => if (skipWs rest).isEmpty then some v else none
  | none => none

/-- Python truthiness of a JSON value (`if not data:` after a successful
parse). -/
def jsonTruthy : Json → Bool
  | Json.null => false
  | Json.bool b => b
  | Json.int z => z ≠ 0
  | Json.num q => q ≠ 0
  | Json.str s => ¬ s.isEmpty
  | Json.arr xs => ¬ xs.isEmpty
  | Json.obj fields => ¬ fields.isEmpty

/-! ## toe_core.py (unified and core variants)

`src/unified/toe_core.py` and `src/core/toe_core.py` both define a function
named `load_json_safely`, with different behaviour:
the unified one parses a JSON **string** and returns `None` on failure, the
core one opens a **file path** and returns `\x7b\x7d` on any failure, printing a
warning.  The file system is an explicit parameter mapping each path to the
contents of a readable file (absent or unreadable paths map to `none`);
exception texts in printed warnings are abbreviated. -/

/-- `load_json_safely` of `src/unified/toe_core.py`: parse a JSON string,
returning `none` when `json.loads` raises `JSONDecodeError`. -/
def unified_load_json_safely (json_str : String) : Option Json :=
  jsonLoads json_str

/-- The file system visible to the embedded code. -/
def FileSystem : Type := String → Option String

/-- Result of a core-module call that may print warnings. -/
structure LoadResult where
  value : Json
  printed : List String

/-- `load_json_safely` of `src/core/toe_core.py`: open the file and
`json.load` it; on any exception print a warning and return the empty dict. -/
def core_load_json_safely (fs : FileSystem) (file_path : String) : LoadResult :=
  match fs file_path with
  | none =>
    ⟨Json.obj [],
     ["Error loading JSON file " ++ file_path ++
      ": [Errno 2] No such file or directory: \x27" ++ file_path ++ "\x27"]⟩
  | some content =>
    match jsonLoads content with
    | some v => ⟨v, []⟩
    | none =>
      ⟨Json.obj [], ["Error loading JSON file " ++ file_path ++ ": Expecting value"]⟩

/-- Python whitespace stripped by `str.strip()` (ASCII part; the repository
never strips non-ASCII whitespace). -/
def isPyWs (c : Char) : Bool :=
  c = ' ' ∨ c = '\t' ∨ c = '\n' ∨ c = '\r' ∨ c = '\x0b' ∨ c = '\x0c'

/-- Python `str.strip()`. -/
def pyStrip (s : String) : String :=
  String.mk (((s.data.dropWhile isPyWs).reverse.dropWhile isPyWs).reverse)

/-- Exit status and captured combined output (stdout plus stderr) of a
spawned subprocess. -/
structure ProcResult where
  exitcode : ℤ
  output : String

/-- `run_script_safely` of `src/unified/toe_core.py`, as a function of the
outcome of the spawned subprocess: `subprocess.check_output` returns the
output on exit status 0 and raises `CalledProcessError` otherwise, which the
function converts into the string `"Error: "` followed by the output. -/
def run_script_safely (run : ProcResult) : String :=
  if run.exitcode = 0 then pyStrip run.output else "Error: " ++ run.output

/-! ## pdfagent.py : PDFAgent.generate_pdf_from_latex -/

/-- Outcome of running `pdflatex` when it is installed. -/
inductive PdflatexOutcome where
  | success
  | calledProcessError (stderr : String)
deriving DecidableEq

/-- The outside world as seen by one `generate_pdf_from_latex` call.  OS
errors in directory creation and file copying are not modelled. -/
structure PdfWorld where
  /-- Whether `which pdflatex` exits successfully (pdflatex on PATH). -/
  pdflatexInstalled : Bool
  /-- Outcome of the `pdflatex` run, when it is installed. -/
  pdflatexRun : PdflatexOutcome
  /-- Whether `temp.pdf` exists after a successful `pdflatex` run. -/
  pdflatexPdfExists : Bool
  /-- The exception text if ReportLab raises during the fallback build. -/
  reportlabError : Option String
  /-- Whether `temp.pdf` exists after the ReportLab fallback build. -/
  reportlabPdfExists : Bool
  /-- The output directory of this `PDFAgent` instance. -/
  output_dir : String

/-- The `str` of the `FileNotFoundError` raised by
`subprocess.run(["pdflatex", ...])` when `pdflatex` is not on the PATH. -/
def pdflatexFnfMsg : String :=
  "[Errno 2] No such file or directory: \x27pdflatex\x27"

/-- `os.path.join` for the two-argument calls the agents make. -/
def osPathJoin (dir file : String) : String :=
  if file.startsWith "/" then file
  else if dir = "" then file
  else if dir.endsWith "/" then dir ++ file
  else dir ++ "/" ++ file

/-- The output path `generate_pdf_from_latex` writes to: the argument itself
when absolute or containing a slash, otherwise joined to the agent output
directory. -/
def pdfOutputPath (output_dir output : String) : String :=
  if output.startsWith "/" ∨ output.contains '/' then output
  else osPathJoin output_dir output

/-- `PDFAgent.generate_pdf_from_latex` of `src/unified/agents/pdfagent.py`.
When `pdflatex` is installed the `which` check passes and `pdflatex` runs: a
`CalledProcessError` is converted to an error string, otherwise the PDF is
copied to the output path.  When `pdflatex` is absent the ReportLab fallback
runs inside the outer `try`; after it finishes, control falls through to
`subprocess.run(["pdflatex", ...])`, which raises `FileNotFoundError`
(pdflatex is absent), caught by the outer `except Exception` handler. -/
def generate_pdf_from_latex (w : PdfWorld) (latex_content output : String) : String :=
  if w.pdflatexInstalled then
    match w.pdflatexRun with
    | PdflatexOutcome.calledProcessError stderr =>
      "Error: PDF generation failed: " ++ stderr
    | PdflatexOutcome.success =>
      if ¬ w.pdflatexPdfExists then "Error: PDF generation failed"
      else pdfOutputPath w.output_dir output
  else
    match w.reportlabError with
    | some e => "Error: PDF generation failed: " ++ e
    | none =>
      if ¬ w.reportlabPdfExists then "Error: PDF generation with ReportLab failed"
      else
        "Error: PDF generation failed: " ++ pdflatexFnfMsg

/-! ### Claims C2, C4 and C5 -/

/-- Claim C2: the code contradicts its own comment ("Continue with the rest
of the function to copy the PDF to the output path").  When `pdflatex` is
absent and the ReportLab fallback builds the PDF, `generate_pdf_from_latex`
still returns an error string — never the requested output path — because
control falls through to the `pdflatex` invocation, which raises
`FileNotFoundError`. -/
theorem generate_pdf_fallback_still_errors (w : PdfWorld)
    (latex_content output : String)
    (habsent : w.pdflatexInstalled = false)
    (hok : w.reportlabError = none) (hpdf : w.reportlabPdfExists = true) :
    generate_pdf_from_latex w latex_content output =
      "Error: PDF generation failed: [Errno 2] No such file or directory: \x27pdflatex\x27" := by
  simp [generate_pdf_from_latex, habsent, hok, hpdf, pdflatexFnfMsg]

/-- Witness for Claim C2 at a concrete world and input. -/
theorem generate_pdf_fallback_still_errors_witness :
    generate_pdf_from_latex
      ⟨false, PdflatexOutcome.success, false, none, true, "gfx/pdf"⟩
      "\\title\x7bT\x7d" "out.pdf" =
      "Error: PDF generation failed: [Errno 2] No such file or directory: \x27pdflatex\x27" :=
  generate_pdf_fallback_still_errors _ _ _ rfl rfl rfl

/-- Claim C4: a failing subprocess does not raise out of `run_script_safely`;
the `CalledProcessError` is caught and the result is the string `"Error: "`
followed by the subprocess output.  Likewise `generate_pdf_from_latex`
converts a failing `pdflatex` run into a returned string beginning with
`"Error: "`. -/
theorem subprocess_failures_become_error_strings
    (run : ProcResult) (hrun : run.exitcode ≠ 0)
    (w : PdfWorld) (latex_content output stderr : String)
    (hinst : w.pdflatexInstalled = true)
    (hfail : w.pdflatexRun = PdflatexOutcome.calledProcessError stderr) :
    run_script_safely run = "Error: " ++ run.output ∧
    generate_pdf_from_latex w latex_content output =
      "Error: " ++ ("PDF generation failed: " ++ stderr) := by
  constructor
  · simp [run_script_safely, hrun]
  · simp [generate_pdf_from_latex, hinst, hfail]
    apply String.ext
    simp [String.data_append]

/-- Witness for Claim C4 at a concrete failing subprocess and world. -/
theorem subprocess_failures_become_error_strings_witness :
    run_script_safely ⟨1, "boom"⟩ = "Error: " ++ "boom" ∧
    generate_pdf_from_latex
      ⟨true, PdflatexOutcome.calledProcessError "! LaTeX Error", true, none, false, "gfx/pdf"⟩
      "x" "out.pdf" = "Error: " ++ ("PDF generation failed: " ++ "! LaTeX Error") :=
  subprocess_failures_become_error_strings ⟨1, "boom"⟩ (by decide) _ "x" "out.pdf"
    "! LaTeX Error" rfl rfl

/-- Claim C5: for a path that does not name an existing readable JSON file,
the core module `load_json_safely` prints a warning and returns the empty
dict, and does not raise; the unified module function of the same name
instead parses a JSON string and returns `None` on failure. -/
theorem core_load_json_safely_fallback (fs : FileSystem) (path : String)
    (h : fs path = none ∨ ∃ content, fs path = some content ∧ jsonLoads content = none) :
    (core_load_json_safely fs path).value = Json.obj [] ∧
    (core_load_json_safely fs path).printed ≠ [] ∧
    (∀ s, jsonLoads s = none → unified_load_json_safely s = none) := by
  refine ⟨?_, ?_, fun s hs => hs⟩
  · rcases h with h | ⟨content, hc, hp⟩
    · simp [core_load_json_safely, h]
    · simp [core_load_json_safely, hc, hp]
  · rcases h with h | ⟨content, hc, hp⟩
    · simp [core_load_json_safely, h]
    · simp [core_load_json_safely, hc, hp]

/-- Witness for Claim C5 on an empty file system and the path
"missing.json". -/
theorem core_load_json_safely_fallback_witness :
    (core_load_json_safely (fun _ => none) "missing.json").value = Json.obj [] ∧
    (core_load_json_safely (fun _ => none) "missing.json").printed ≠ [] ∧
    (∀ s, jsonLoads s = none → unified_load_json_safely s = none) :=
  core_load_json_safely_fallback (fun _ => none) "missing.json" (Or.inl rfl)

/-! ## latexagent.py : LaTeXAgent.generate_latex

`src/unified/agents/latexagent.py` imports `load_json_safely` from
`..toe_core` — the unified variant, which parses its argument as a JSON
string — and passes it the file path
`f"component_formulas/\x7bformula\x7d.json"`. -/

/-- `str.replace` on `String`. -/
def pyReplaceS (s old new : String) : String :=
  String.mk (pyReplace old.data new.data s.data)

/-- `d.get(key, default)` on a parsed JSON value; a non-dict raises
`AttributeError` as in Python. -/
def jsonDictGet (j : Json) (key : String) (dflt : Json) : Except PyErr Json :=
  match j with
  | Json.obj fields =>
    Except.ok (((fields.find? (fun p => p.1 = key)).map Prod.snd).getD dflt)
  | _ => Except.error (PyErr.attributeError "get")

/-- Python `key in value` for a string key against a parsed JSON value
(dict-key membership, list membership, substring test; numbers raise
`TypeError`). -/
def pyContainsKey (key : String) (j : Json) : Except PyErr Bool :=
  match j with
  | Json.obj fields => Except.ok (fields.any (fun p => p.1 = key))
  | Json.arr xs => Except.ok (xs.any (fun x => match x with
      | Json.str s => s = key
      | _ => false))
  | Json.str s => Except.ok (hasInfix key.data s.data)
  | _ => Except.error (PyErr.typeError "argument of type is not iterable")

/-- Python `value[key]` for a string key (dicts only; other types raise). -/
def pySubscript (j : Json) (key : String) : Except PyErr Json :=
  match j with
  | Json.obj fields =>
    match fields.find? (fun p => p.1 = key) with
    | some p => Except.ok p.2
    | none => Except.error (PyErr.keyError key)
  | _ => Except.error (PyErr.typeError "not subscriptable")

/-- Python `for x in value`: list elements, string characters, dict keys;
other types raise `TypeError`. -/
def pyIterate (j : Json) : Except PyErr (List Json) :=
  match j with
  | Json.arr xs => Except.ok xs
  | Json.str s => Except.ok (s.data.map (fun c => Json.str (String.mk [c])))
  | Json.obj fields => Except.ok (fields.map (fun p => Json.str p.1))
  | _ => Except.error (PyErr.typeError "not iterable")

/-- Python `str()` of a parsed JSON value, as used by f-string interpolation.
(The `repr` of containers is abbreviated: it only ever feeds a JSON parse of
a path-shaped string, which fails regardless.) -/
def pyStrOf : Json → String
  | Json.null => "None"
  | Json.bool true => "True"
  | Json.bool false => "False"
  | Json.int z => toString z
  | Json.num q => toString q
  | Json.str s => s
  | Json.arr _ => "[...]"
  | Json.obj _ => "\x7b...\x7d"

/-- The value interpolated must be a `str` for `str.replace`; other types
raise `TypeError`. -/
def asPyStr (j : Json) : Except PyErr String :=
  match j with
  | Json.str s => Except.ok s
  | _ => Except.error (PyErr.typeError "replace arg must be str")

/-- One iteration of the components loop in `generate_latex`: load the
component path as JSON (which always fails, see `jsonLoads`), and append its
section when truthy. -/
def componentSection (acc : String) (component : Json) : String :=
  match unified_load_json_safely ("component_formulas/" ++ pyStrOf component ++ ".json") with
  | none => acc
  | some cj =>
    if jsonTruthy cj then
      -- this branch mirrors the Python body; it is unreachable because the
      -- JSON parse of a path-shaped string always fails
      acc ++ "\\subsection\x7b" ++
        (match jsonDictGet cj "name" (Json.str (pyStrOf component)) with
         | Except.ok v => pyStrOf v
         | Except.error _ => "") ++ "\x7d\n\n" ++
        (match jsonDictGet cj "description" (Json.str "") with
         | Except.ok v => pyStrOf v
         | Except.error _ => "") ++ "\n\n" ++
      "\\begin\x7bequation\x7d\n" ++
        (match jsonDictGet cj "latex" (Json.str "") with
         | Except.ok v => pyStrOf v
         | Except.error _ => "") ++ "\n\\end\x7bequation\x7d\n\n"
    else acc

/-- `LaTeXAgent.generate_latex` of `src/unified/agents/latexagent.py`.
`templates` is the `self.templates` dictionary loaded at initialisation. -/
def generate_latex (templates : List (String × String)) (formula : String)
    (include_components : Bool) : Except PyErr String :=
  match unified_load_json_safely ("component_formulas/" ++ formula ++ ".json") with
  | none => Except.ok ("Error: Formula \x27" ++ formula ++ "\x27 not found")
  | some j =>
    if ¬ jsonTruthy j then
      Except.ok ("Error: Formula \x27" ++ formula ++ "\x27 not found")
    else
      let template := ((templates.find? (fun p => p.1 = "formula")).map Prod.snd).getD ""
      if template = "" then Except.ok "Error: Formula template not found"
      else do
        let nameVal ← jsonDictGet j "name" (Json.str formula)
        let nameStr ← asPyStr nameVal
        let latex1 := pyReplaceS template "\x7b\x7bFORMULA_NAME\x7d\x7d" nameStr
        let descVal ← jsonDictGet j "description" (Json.str "")
        let descStr ← asPyStr descVal
        let latex2 := pyReplaceS latex1 "\x7b\x7bFORMULA_DESCRIPTION\x7d\x7d" descStr
        let latexVal ← jsonDictGet j "latex" (Json.str "")
        let latexStr ← asPyStr latexVal
        let latex3 := pyReplaceS latex2 "\x7b\x7bFORMULA_LATEX\x7d\x7d" latexStr
        let hasComp ← pyContainsKey "components" j
        if include_components ∧ hasComp then do
          let comps ← pySubscript j "components"
          let compList ← pyIterate comps
          let componentsLatex :=
            compList.foldl componentSection "\\section\x7bComponents\x7d\n\n"
          Except.ok (pyReplaceS latex3 "\x7b\x7bFORMULA_COMPONENTS\x7d\x7d" componentsLatex)
        else
          Except.ok (pyReplaceS latex3 "\x7b\x7bFORMULA_COMPONENTS\x7d\x7d" "")

/-- The path string `generate_latex` hands to the JSON-string parser never
parses: after no leading whitespace, its first character is the letter "c",
which starts no JSON value. -/
theorem jsonLoads_component_path (formula : String) :
    unified_load_json_safely ("component_formulas/" ++ formula ++ ".json") = none := by
  have hdata : ("component_formulas/" ++ formula ++ ".json").data
      = 'c' :: ("omponent_formulas/".data ++ (formula.data ++ ".json".data)) := by
    have h0 : "component_formulas/".data = 'c' :: "omponent_formulas/".data := rfl
    simp [String.data_append, h0]
  unfold unified_load_json_safely jsonLoads
  rw [hdata]
  have hws : skipWs ('c' :: ("omponent_formulas/".data ++ (formula.data ++ ".json".data)))
      = 'c' :: ("omponent_formulas/".data ++ (formula.data ++ ".json".data)) := by
    simp [skipWs, List.dropWhile_cons, isJsonWs]
  rw [hws]
  simp [parseValue, isDigitChar]

/-- Claim C1 (code bug): `LaTeXAgent.generate_latex` never consumes the JSON
definition file.  It passes the path
`f"component_formulas/\x7bformula\x7d.json"` to the unified module
`load_json_safely`, which parses its argument as a JSON string; that parse
fails for every formula name, so the function returns the string
`"Error: Formula ... not found"` for every formula, every template set and
every state of the file system (which the function never reads). -/
theorem generate_latex_always_not_found (templates : List (String × String))
    (formula : String) (include_components : Bool) :
    generate_latex templates formula include_components =
      Except.ok ("Error: Formula \x27" ++ formula ++ "\x27 not found") := by
  unfold generate_latex
  rw [jsonLoads_component_path]

/-! ## Python numeric parameter values (toe_vis.py)

Callers hand `validate_parameters` a dict of arbitrary values.  The value
universe below covers ints, floats (with the IEEE special values; finite
floats are idealised as rationals — every literal in the visualization
catalog is exact in the comparisons made), strings, booleans and None.
Digit-separator underscores in numeric strings are not modelled. -/

/-- A Python float. -/
inductive PFloat where
  | rat (q : ℚ)
  | nan
  | inf
  | ninf
deriving DecidableEq

/-- IEEE `<` on model floats: NaN is incomparable with everything. -/
def pfloatLt : PFloat → PFloat → Bool
  | PFloat.nan, _ => false
  | _, PFloat.nan => false
  | PFloat.ninf, PFloat.ninf => false
  | PFloat.ninf, _ => true
  | _, PFloat.ninf => false
  | PFloat.inf, _ => false
  | PFloat.rat _, PFloat.inf => true
  | PFloat.rat a, PFloat.rat b => decide (a < b)

/-- IEEE `≤` on model floats. -/
def pfloatLe : PFloat → PFloat → Bool
  | PFloat.nan, _ => false
  | _, PFloat.nan => false
  | PFloat.ninf, _ => true
  | _, PFloat.ninf => false
  | _, PFloat.inf => true
  | PFloat.inf, _ => false
  | PFloat.rat a, PFloat.rat b => decide (a ≤ b)

/-- A Python value in a caller-supplied parameter dict. -/
inductive PVal where
  | int (z : ℤ)
  | float (f : PFloat)
  | str (s : String)
  | bool (b : Bool)
  | none
deriving DecidableEq

/-- Truncation toward zero, the rounding of Python `int(float)`. -/
def ratTrunc (q : ℚ) : ℤ :=
  if 0 ≤ q then ⌊q⌋ else -⌊-q⌋

/-- Python `int(string)`: optional surrounding whitespace, optional sign,
then a nonempty digit run. -/
def pyIntOfString (s : String) : Option ℤ :=
  let l := ((s.data.dropWhile isPyWs).reverse.dropWhile isPyWs).reverse
  let p : Bool × List Char := match l with
    | '-' :: r => (true, r)
    | '+' :: r => (false, r)
    | _ => (false, l)
  if p.2 ≠ [] ∧ p.2.all isDigitChar then
    some (if p.1 then -(digitsToNat p.2 : ℤ) else (digitsToNat p.2 : ℤ))
  else Option.none

/-- Python `int(value)` on the modelled universe: ints pass through, bools
are 0/1, finite floats truncate, NaN raises `ValueError`, infinities raise
`OverflowError`, numeric strings parse, `None` raises `TypeError`. -/
def pyInt : PVal → Except PyErr ℤ
  | PVal.int z => Except.ok z
  | PVal.bool b => Except.ok (if b then 1 else 0)
  | PVal.float (PFloat.rat q) => Except.ok (ratTrunc q)
  | PVal.float PFloat.nan =>
    Except.error (PyErr.valueError "cannot convert float NaN to integer")
  | PVal.float PFloat.inf =>
    Except.error (PyErr.overflowError "cannot convert float infinity to integer")
  | PVal.float PFloat.ninf =>
    Except.error (PyErr.overflowError "cannot convert float infinity to integer")
  | PVal.str s =>
    match pyIntOfString s with
    | some z => Except.ok z
    | Option.none => Except.error (PyErr.valueError "invalid literal for int() with base 10")
  | PVal.none => Except.error (PyErr.typeError "int() argument must be a string or a number")

/-- Lowercased copy of a string (ASCII case only, as the repository uses). -/
def pyLower (s : String) : String :=
  String.mk (s.data.map Char.toLower)

/-- Python `float(string)`: optional whitespace and sign, then `nan`, `inf`,
`infinity` (case-insensitive) or a decimal with optional fraction and
exponent (at least one digit overall). -/
def pyFloatOfString (s : String) : Option PFloat :=
  let l := ((s.data.dropWhile isPyWs).reverse.dropWhile isPyWs).reverse
  let p : Bool × List Char := match l with
    | '-' :: r => (true, r)
    | '+' :: r => (false, r)
    | _ => (false, l)
  let low := (p.2.map Char.toLower)
  if low = "nan".data then some PFloat.nan
  else if low = "inf".data ∨ low = "infinity".data then
    some (if p.1 then PFloat.ninf else PFloat.inf)
  else
    let ids := p.2.takeWhile isDigitChar
    let l2 := p.2.dropWhile isDigitChar
    let fpart : Option (List Char × List Char) := match l2 with
      | '.' :: r => some (r.takeWhile isDigitChar, r.dropWhile isDigitChar)
      | _ => some ([], l2)
    match fpart with
    | Option.none => Option.none
    | some (fds, l3) =>
      if ids = [] ∧ fds = [] then Option.none
      else
        let epart : Option (ℤ × List Char) := match l3 with
          | e :: r =>
            if e = 'e' ∨ e = 'E' then
              let q : Bool × List Char := match r with
                | '+' :: r2 => (false, r2)
                | '-' :: r2 => (true, r2)
                | _ => (false, r)
              match q.2.takeWhile isDigitChar, q.2.dropWhile isDigitChar with
              | [], _ => Option.none
              | eds, l4 =>
                some ((if q.1 then -(digitsToNat eds : ℤ) else (digitsToNat eds : ℤ)), l4)
            else Option.none
          | [] => some (0, [])
        match epart with
        | Option.none => Option.none
        | some (expo, l5) =>
          if l5 ≠ [] then Option.none
          else
            let mant : ℚ := (digitsToNat ids : ℚ) +
              (digitsToNat fds : ℚ) / ((10 : ℚ) ^ fds.length)
            let q0 : ℚ := mant * (10 : ℚ) ^ expo
            some (PFloat.rat (if p.1 then -q0 else q0))

/-- Python `float(value)` on the modelled universe. -/
def pyFloat : PVal → Except PyErr PFloat
  | PVal.float f => Except.ok f
  | PVal.int z => Except.ok (PFloat.rat z)
  | PVal.bool b => Except.ok (PFloat.rat (if b then 1 else 0))
  | PVal.str s =>
    match pyFloatOfString s with
    | some f => Except.ok f
    | Option.none => Except.error (PyErr.valueError "could not convert string to float")
  | PVal.none => Except.error (PyErr.typeError "float() argument must be a string or a number")

/-- Python `a < b` between parameter values and catalog bounds (numbers
only; other operand types raise `TypeError`). -/
def pvalLt : PVal → PVal → Except PyErr Bool
  | PVal.int a, PVal.int b => Except.ok (decide (a < b))
  | PVal.int a, PVal.float f => Except.ok (pfloatLt (PFloat.rat a) f)
  | PVal.float f, PVal.int b => Except.ok (pfloatLt f (PFloat.rat b))
  | PVal.float a, PVal.float b => Except.ok (pfloatLt a b)
  | _, _ => Except.error (PyErr.typeError "comparison not supported between instances")

/-- Python `a ≤ b` on numbers (used only to state bound membership). -/
def pvalLe : PVal → PVal → Bool
  | PVal.int a, PVal.int b => decide (a ≤ b)
  | PVal.int a, PVal.float f => pfloatLe (PFloat.rat a) f
  | PVal.float f, PVal.int b => pfloatLe f (PFloat.rat b)
  | PVal.float a, PVal.float b => pfloatLe a b
  | _, _ => false

/-! ## toe_vis.py : VisualizationTools -/

/-- The declared type of a visualization parameter. -/
inductive PType where
  | int
  | float
  | string
deriving DecidableEq

/-- One entry of a `parameters` dict in `available_visualizations`
(the `description` strings of parameters are omitted: no code reads them). -/
structure ParamSpec where
  type : PType
  default : PVal
  min? : Option PVal
  max? : Option PVal
deriving DecidableEq

/-- One entry of `available_visualizations`. -/
structure VisInfo where
  description : String
  parameters : List (String × ParamSpec)
deriving DecidableEq

/-- The `available_visualizations` catalog built in
`VisualizationTools.__init__`, in insertion order. -/
def available_visualizations : List (String × VisInfo) :=
  [("4d_spacetime_curvature",
    ⟨"Visualize 4D spacetime around massive objects",
     [("mass", ⟨PType.float, PVal.float (PFloat.rat 1),
        some (PVal.float (PFloat.rat (1/10))), some (PVal.float (PFloat.rat 10))⟩),
      ("grid_size", ⟨PType.int, PVal.int 20, some (PVal.int 10), some (PVal.int 50)⟩),
      ("output_dir", ⟨PType.string, PVal.str "gfx/3d", Option.none, Option.none⟩)]⟩),
   ("quantum_foam_3d",
    ⟨"Visualize quantum foam in 3D",
     [("grid_size", ⟨PType.int, PVal.int 20, some (PVal.int 10), some (PVal.int 30)⟩),
      ("amplitude", ⟨PType.float, PVal.float (PFloat.rat (1/2)),
        some (PVal.float (PFloat.rat (1/10))), some (PVal.float (PFloat.rat 1))⟩),
      ("frequency", ⟨PType.float, PVal.float (PFloat.rat 2),
        some (PVal.float (PFloat.rat (1/2))), some (PVal.float (PFloat.rat 5))⟩),
      ("output_dir", ⟨PType.string, PVal.str "gfx/3d", Option.none, Option.none⟩)]⟩),
   ("extra_dimensions_3d",
    ⟨"Visualize extra dimensions in 3D",
     [("num_dimensions", ⟨PType.int, PVal.int 10, some (PVal.int 4), some (PVal.int 11)⟩),
      ("grid_size", ⟨PType.int, PVal.int 20, some (PVal.int 10), some (PVal.int 30)⟩),
      ("output_dir", ⟨PType.string, PVal.str "gfx/3d", Option.none, Option.none⟩)]⟩),
   ("4d_higgs_field",
    ⟨"Visualize the 4D Higgs field",
     [("grid_size", ⟨PType.int, PVal.int 30, some (PVal.int 10), some (PVal.int 50)⟩),
      ("output_dir", ⟨PType.string, PVal.str "gfx/3d", Option.none, Option.none⟩)]⟩),
   ("gauge_field_4d",
    ⟨"Visualize a 4D gauge field configuration",
     [("grid_size", ⟨PType.int, PVal.int 10, some (PVal.int 5), some (PVal.int 20)⟩),
      ("output_dir", ⟨PType.string, PVal.str "gfx/3d", Option.none, Option.none⟩)]⟩)]

/-- Python `repr` of a list of strings, as interpolated into the catalog
error messages. -/
def pyListRepr (names : List String) : String :=
  "[" ++ String.intercalate ", " (names.map (fun n => "\x27" ++ n ++ "\x27")) ++ "]"

/-- `VisualizationTools.get_visualization_info`, over the catalog `cat`
(`self.available_visualizations`). -/
def get_visualization_info (cat : List (String × VisInfo)) (name : String) :
    Except PyErr VisInfo :=
  match cat.find? (fun p => p.1 = name) with
  | some p => Except.ok p.2
  | Option.none =>
    Except.error (PyErr.valueError ("Unknown visualization: " ++ name ++
      ". Available visualizations: " ++ pyListRepr (cat.map Prod.fst)))

/-- `VisualizationTools.get_visualization_parameters`. -/
def get_visualization_parameters (cat : List (String × VisInfo)) (name : String) :
    Except PyErr (List (String × ParamSpec)) :=
  (get_visualization_info cat name).map (fun info => info.parameters)

/-- One entry of the dict returned by `validate_parameters` (the diagnostic
`message` string is omitted: no claim or caller reads it). -/
structure VRes where
  valid : Bool
  value : PVal
deriving DecidableEq

/-- The per-parameter body of `validate_parameters`: coercion to the declared
type (with `ValueError`/`TypeError` caught, anything else — such as the
`OverflowError` of `int` on an infinite float — propagating), then clamping
to a violated declared bound. -/
def rangeCheck (info : ParamSpec) (v : PVal) : Except PyErr VRes := do
  let ltMin ← match info.min? with
    | some m => pvalLt v m
    | Option.none => pure false
  if ltMin then pure ⟨false, (info.min?).getD v⟩
  else
    let gtMax ← match info.max? with
      | some mx => pvalLt mx v
      | Option.none => pure false
    if gtMax then pure ⟨false, (info.max?).getD v⟩
    else pure ⟨true, v⟩

/-- The type-coercion stage of the `validate_parameters` body, with the
caught exceptions (`ValueError`, `TypeError`) mapped to `Option.none` and
anything else propagating. -/
def coerceStep (t : PType) (v0 : PVal) : Except PyErr (Option PVal) :=
  match t with
  | PType.int =>
    match pyInt v0 with
    | Except.ok z => pure (some (PVal.int z))
    | Except.error (PyErr.valueError _) => pure Option.none
    | Except.error (PyErr.typeError _) => pure Option.none
    | Except.error e => throw e
  | PType.float =>
    match pyFloat v0 with
    | Except.ok f => pure (some (PVal.float f))
    | Except.error (PyErr.valueError _) => pure Option.none
    | Except.error (PyErr.typeError _) => pure Option.none
    | Except.error e => throw e
  | PType.string => pure (some v0)

def validateParam (info : ParamSpec) (given : Option PVal) : Except PyErr VRes :=
  match given with
  | Option.none => Except.ok ⟨true, info.default⟩
  | some v0 => do
    let step ← coerceStep info.type v0
    match step with
    | Option.none => pure ⟨false, info.default⟩
    | some v => rangeCheck info v

/-- The `for name, info in param_info.items():` loop of
`validate_parameters`, building one result per declared parameter in
declaration order. -/
def validateAll (params : List (String × PVal)) :
    List (String × ParamSpec) → Except PyErr (List (String × VRes))
  | [] => Except.ok []
  | p :: rest => do
    let r ← validateParam p.2 ((params.find? (fun q => q.1 = p.1)).map Prod.snd)
    let rs ← validateAll params rest
    pure ((p.1, r) :: rs)

/-- `VisualizationTools.validate_parameters`: one result per declared
parameter, in declaration order. -/
def validate_parameters (cat : List (String × VisInfo)) (name : String)
    (params : List (String × PVal)) : Except PyErr (List (String × VRes)) := do
  let specs ← get_visualization_parameters cat name
  validateAll params specs

/-- The values a generated visualization script interpolates (the script text
itself is a fixed template around them; `show` is interpolated separately). -/
structure VisScript where
  vis : String
  usedParams : List (String × PVal)
  showFlag : Bool
deriving DecidableEq

/-- `VisualizationTools._get_visualization_script` and the per-visualization
script builders: each reads exactly the parameters below from the validated
dict via `params.get(name, default)`. -/
def get_visualization_script (name : String) (params : List (String × PVal))
    (showFlag : Bool) : VisScript :=
  let get := fun (k : String) (d : PVal) =>
    ((params.find? (fun p => p.1 = k)).map Prod.snd).getD d
  if name = "4d_spacetime_curvature" then
    ⟨name, [("mass", get "mass" (PVal.float (PFloat.rat 1))),
            ("grid_size", get "grid_size" (PVal.int 20))], showFlag⟩
  else if name = "quantum_foam_3d" then
    ⟨name, [("grid_size", get "grid_size" (PVal.int 20)),
            ("amplitude", get "amplitude" (PVal.float (PFloat.rat (1/2)))),
            ("frequency", get "frequency" (PVal.float (PFloat.rat 2)))], showFlag⟩
  else if name = "extra_dimensions_3d" then
    ⟨name, [("num_dimensions", get "num_dimensions" (PVal.int 10)),
            ("grid_size", get "grid_size" (PVal.int 20))], showFlag⟩
  else if name = "4d_higgs_field" then
    ⟨name, [("grid_size", get "grid_size" (PVal.int 30))], showFlag⟩
  else if name = "gauge_field_4d" then
    ⟨name, [("grid_size", get "grid_size" (PVal.int 10))], showFlag⟩
  else ⟨name, [], showFlag⟩

/-- The script `VisualizationTools.generate_visualization` builds for a call:
the membership check, the defaulting of `params`, validation, extraction of
the validated values, and the script construction. -/
def generate_visualization_script (cat : List (String × VisInfo)) (name : String)
    (params : Option (List (String × PVal))) (showFlag : Bool) :
    Except PyErr VisScript :=
  if ¬ cat.any (fun p => p.1 = name) then
    Except.error (PyErr.valueError ("Unknown visualization: " ++ name ++
      ". Available visualizations: " ++ pyListRepr (cat.map Prod.fst)))
  else do
    let ps := params.getD []
    let validation ← validate_parameters cat name ps
    let validated := validation.map (fun p => (p.1, p.2.value))
    pure (get_visualization_script name validated showFlag)

/-- `VisualizationTools.generate_visualization`: builds the script, runs it
through `run_script_safely` (the subprocess outcome is the parameter `run`),
and returns the stripped result (`result.strip()` cannot raise, so the
`except` arm returning "Error generating visualization: ..." is dead). -/
def generate_visualization (cat : List (String × VisInfo)) (run : ProcResult)
    (name : String) (params : Option (List (String × PVal))) (showFlag : Bool) :
    Except PyErr String := do
  let _script ← generate_visualization_script cat name params showFlag
  pure (pyStrip (run_script_safely run))

/-- A numeric parameter value (int or float). -/
def numericPVal : PVal → Bool
  | PVal.int _ => true
  | PVal.float _ => true
  | _ => false

/-- Not the float NaN. -/
def notNanPVal : PVal → Bool
  | PVal.float PFloat.nan => false
  | _ => true

/-- A comparison that returns (rather than raising) has numeric operands. -/
theorem pvalLt_ok_numeric (a b : PVal) (c : Bool) (h : pvalLt a b = Except.ok c) :
    numericPVal a = true ∧ numericPVal b = true := by
  cases a <;> cases b <;> simp [pvalLt, numericPVal] at h ⊢

/-- On non-NaN numbers, a failed strict comparison yields the reverse weak
comparison, as for real numbers. -/
theorem pvalLe_of_lt_false (a b : PVal) (ha : numericPVal a = true)
    (hb : numericPVal b = true) (han : notNanPVal a = true)
    (hbn : notNanPVal b = true) (h : pvalLt a b = Except.ok false) :
    pvalLe b a = true := by
  cases a with
  | int za =>
    cases b with
    | int zb =>
      simp [pvalLt] at h
      simp [pvalLe]
      omega
    | float fb =>
      cases fb with
      | rat qb =>
        simp [pvalLt, pfloatLt] at h
        simp [pvalLe, pfloatLe]
        exact h
      | nan => simp [notNanPVal] at hbn
      | inf => simp [pvalLt, pfloatLt] at h
      | ninf => simp [pvalLe, pfloatLe]
    | _ => simp [numericPVal] at hb
  | float fa =>
    cases b with
    | int zb =>
      cases fa with
      | rat qa =>
        simp [pvalLt, pfloatLt] at h
        simp [pvalLe, pfloatLe]
        exact h
      | nan => simp [notNanPVal] at han
      | inf => simp [pvalLe, pfloatLe]
      | ninf => simp [pvalLt, pfloatLt] at h
    | float fb =>
      cases fa <;> cases fb <;>
        simp [pvalLt, pfloatLt, notNanPVal, pvalLe, pfloatLe] at h han hbn ⊢ <;>
        exact h
    | _ => simp [numericPVal] at hb
  | _ => simp [numericPVal] at ha

/-- Weak comparison is reflexive on non-NaN numbers. -/
theorem pvalLe_refl (a : PVal) (ha : numericPVal a = true)
    (han : notNanPVal a = true) : pvalLe a a = true := by
  cases a with
  | int z => simp [pvalLe]
  | float f => cases f <;> simp [pvalLe, pfloatLe, notNanPVal] at han ⊢
  | _ => simp [numericPVal] at ha

/-- When both bounds are declared, sane (numeric, non-NaN, ordered) and the
check returns with a non-NaN value, that value lies within the bounds. -/
theorem rangeCheck_bounds (info : ParamSpec) (mn mx : PVal)
    (hmin : info.min? = some mn) (hmax : info.max? = some mx)
    (hmnn : numericPVal mn = true) (hmna : notNanPVal mn = true)
    (hmxn : numericPVal mx = true) (hmxa : notNanPVal mx = true)
    (hmm : pvalLe mn mx = true)
    (v : PVal) (r : VRes) (h : rangeCheck info v = Except.ok r)
    (hval : notNanPVal r.value = true) :
    pvalLe mn r.value = true ∧ pvalLe r.value mx = true := by
  rw [rangeCheck, hmin, hmax] at h
  dsimp only at h
  cases hlt : pvalLt v mn with
  | error e => rw [hlt] at h; simp [Bind.bind, Except.bind] at h
  | ok b =>
    rw [hlt] at h
    cases b with
    | true =>
      simp [Bind.bind, Except.bind, pure, Except.pure] at h
      rw [← h]
      exact ⟨pvalLe_refl mn hmnn hmna, hmm⟩
    | false =>
      cases hgt : pvalLt mx v with
      | error e => rw [hgt] at h; simp [Bind.bind, Except.bind] at h
      | ok b2 =>
        rw [hgt] at h
        cases b2 with
        | true =>
          simp [Bind.bind, Except.bind, pure, Except.pure] at h
          rw [← h]
          exact ⟨hmm, pvalLe_refl mx hmxn hmxa⟩
        | false =>
          simp [Bind.bind, Except.bind, pure, Except.pure] at h
          rw [← h] at hval ⊢
          have hnums := pvalLt_ok_numeric v mn false hlt
          constructor
          · exact pvalLe_of_lt_false v mn hnums.1 hmnn hval hmna hlt
          · have hnums2 := pvalLt_ok_numeric mx v false hgt
            exact pvalLe_of_lt_false mx v hmxn hnums2.2 hmxa hval hgt

/-- A provided parameter value leads either to the caught-coercion default or
to a range-check result. -/
theorem validateParam_some_cases (info : ParamSpec) (v : PVal) (r : VRes)
    (h : validateParam info (some v) = Except.ok r) :
    r = ⟨false, info.default⟩ ∨ ∃ w, rangeCheck info w = Except.ok r := by
  rw [validateParam] at h
  cases hc : coerceStep info.type v with
  | error e => rw [hc] at h; simp [Bind.bind, Except.bind] at h
  | ok step =>
    rw [hc] at h
    cases step with
    | none =>
      simp [Bind.bind, Except.bind, pure, Except.pure] at h
      exact Or.inl h.symm
    | some w =>
      simp [Bind.bind, Except.bind] at h
      exact Or.inr ⟨w, h⟩

/-- A missing parameter gets the declared default, marked valid. -/
theorem validateParam_missing (info : ParamSpec) :
    validateParam info Option.none = Except.ok ⟨true, info.default⟩ := rfl

/-- Coercions whose failure `validate_parameters` catches. -/
def coercionCaught (t : PType) (v : PVal) : Bool :=
  match t with
  | PType.int =>
    match pyInt v with
    | Except.error (PyErr.valueError _) => true
    | Except.error (PyErr.typeError _) => true
    | _ => false
  | PType.float =>
    match pyFloat v with
    | Except.error (PyErr.valueError _) => true
    | Except.error (PyErr.typeError _) => true
    | _ => false
  | PType.string => false

/-- A non-coercible provided value gets the declared default, marked
invalid. -/
theorem validateParam_caught (info : ParamSpec) (v : PVal)
    (h : coercionCaught info.type v = true) :
    validateParam info (some v) = Except.ok ⟨false, info.default⟩ := by
  rw [validateParam]
  cases ht : info.type with
  | int =>
    rw [ht] at h
    cases hc : pyInt v with
    | ok z => simp [coercionCaught, hc] at h
    | error e =>
      cases e <;> simp [coercionCaught, hc] at h <;>
        simp [coerceStep, hc, Bind.bind, Except.bind, pure, Except.pure]
  | float =>
    rw [ht] at h
    cases hc : pyFloat v with
    | ok z => simp [coercionCaught, hc] at h
    | error e =>
      cases e <;> simp [coercionCaught, hc] at h <;>
        simp [coerceStep, hc, Bind.bind, Except.bind, pure, Except.pure]
  | string => rw [ht] at h; simp [coercionCaught] at h

/-- Sanity of a parameter spec that declares both bounds: bounds numeric,
non-NaN, ordered, and containing the default. -/
def specOk (spec : ParamSpec) : Bool :=
  match spec.min?, spec.max? with
  | some mn, some mx =>
    numericPVal mn ∧ notNanPVal mn ∧ numericPVal mx ∧ notNanPVal mx ∧
    pvalLe mn mx ∧ pvalLe mn spec.default ∧ pvalLe spec.default mx
  | _, _ => true

/-- Every parameter spec in the shipped catalog is sane. -/
theorem catalog_specs_ok :
    ∀ p ∈ available_visualizations, ∀ q ∈ p.2.parameters, specOk q.2 = true := by
  intro p hp q hq
  fin_cases hp <;> fin_cases hq <;>
    simp [specOk, pvalLe, pfloatLe, numericPVal, notNanPVal] <;> norm_num

/-- The relation `validateAll` establishes between its results and the
declared parameters. -/
theorem validateAll_spec (params : List (String × PVal)) :
    ∀ (specs : List (String × ParamSpec)) (rs : List (String × VRes)),
      validateAll params specs = Except.ok rs →
      List.Forall₂ (fun (r : String × VRes) (p : String × ParamSpec) =>
        r.1 = p.1 ∧
        validateParam p.2 ((params.find? (fun q => q.1 = p.1)).map Prod.snd) =
          Except.ok r.2) rs specs := by
  intro specs
  induction specs with
  | nil =>
    intro rs h
    simp [validateAll, pure, Except.pure] at h
    rw [h]
    exact List.Forall₂.nil
  | cons p rest ih =>
    intro rs h
    rw [validateAll] at h
    cases hv : validateParam p.2 ((params.find? (fun q => q.1 = p.1)).map Prod.snd) with
    | error e => rw [hv] at h; simp [Bind.bind, Except.bind] at h
    | ok r =>
      rw [hv] at h
      cases hrest : validateAll params rest with
      | error e => rw [hrest] at h; simp [Bind.bind, Except.bind] at h
      | ok rs2 =>
        rw [hrest] at h
        simp [Bind.bind, Except.bind, pure, Except.pure] at h
        rw [← h]
        exact List.Forall₂.cons ⟨rfl, hv⟩ (ih rs2 hrest)

/-- Pairwise-related lists with equal first components have equal key
sequences. -/
theorem forall2_map_fst {α β : Type} {R : (String × α) → (String × β) → Prop}
    (hR : ∀ a b, R a b → a.1 = b.1) :
    ∀ (xs : List (String × α)) (ys : List (String × β)), List.Forall₂ R xs ys →
      xs.map Prod.fst = ys.map Prod.fst := by
  intro xs ys h
  induction h with
  | nil => rfl
  | cons hab _ ih => simp [List.map_cons, hR _ _ hab, ih]

/-- Upgrade a pairwise relation using membership of the right-hand list. -/
theorem forall2_imp_mem {α β : Type} {R S : α → β → Prop}
    (xs : List α) (ys : List β) (h : List.Forall₂ R xs ys)
    (himp : ∀ a b, b ∈ ys → R a b → S a b) : List.Forall₂ S xs ys := by
  induction h with
  | nil => exact List.Forall₂.nil
  | cons hab htail ih =>
    exact List.Forall₂.cons (himp _ _ (List.mem_cons_self _ _) hab)
      (ih (fun a b hb hr => himp a b (List.mem_cons_of_mem _ hb) hr))

/-- Claim C6, counterexample: validation is not always bound-respecting.  For
the catalog visualization "4d_spacetime_curvature", whose float parameter
"mass" declares min 0.1 and max 10.0, the params dict assigning "mass" the
float NaN validates as `valid` with value NaN — both bound comparisons are
false for NaN, so no clamping happens — and NaN lies within no bounds. -/
theorem validate_parameters_nan_not_clamped :
    validate_parameters available_visualizations "4d_spacetime_curvature"
      [("mass", PVal.float PFloat.nan)] =
      Except.ok [("mass", ⟨true, PVal.float PFloat.nan⟩),
                 ("grid_size", ⟨true, PVal.int 20⟩),
                 ("output_dir", ⟨true, PVal.str "gfx/3d"⟩)] ∧
    pvalLe (PVal.float (PFloat.rat (1/10))) (PVal.float PFloat.nan) = false ∧
    pvalLe (PVal.float PFloat.nan) (PVal.float (PFloat.rat 10)) = false :=
  ⟨rfl, rfl, rfl⟩

/-- Claim C6 (amended): for every catalog visualization and every params
dict, when `validate_parameters` returns (it propagates an uncaught
`OverflowError` when `int` is applied to an infinite float), it returns a
result for exactly the declared parameters; a missing parameter gets the
declared default marked valid, a non-coercible one the default marked
invalid; for every int/float parameter declaring both bounds the returned
value lies within them unless it is the float NaN, which passes through
unclamped; and `generate_visualization` builds its script from exactly these
validated values. -/
theorem validate_parameters_spec (name : String) (params : List (String × PVal))
    (info : VisInfo)
    (hinfo : get_visualization_info available_visualizations name = Except.ok info)
    (rs : List (String × VRes))
    (hrs : validate_parameters available_visualizations name params = Except.ok rs) :
    rs.map Prod.fst = info.parameters.map Prod.fst ∧
    List.Forall₂ (fun (r : String × VRes) (p : String × ParamSpec) =>
      r.1 = p.1 ∧
      (params.find? (fun q => q.1 = p.1) = Option.none → r.2 = ⟨true, p.2.default⟩) ∧
      (∀ w, params.find? (fun q => q.1 = p.1) = some w →
        coercionCaught p.2.type w.2 = true → r.2 = ⟨false, p.2.default⟩) ∧
      (∀ mn mx, p.2.min? = some mn → p.2.max? = some mx →
        notNanPVal r.2.value = true →
        pvalLe mn r.2.value = true ∧ pvalLe r.2.value mx = true)) rs info.parameters ∧
    (∀ showFlag,
      generate_visualization_script available_visualizations name (some params) showFlag =
        Except.ok (get_visualization_script name
          (rs.map (fun p => (p.1, p.2.value))) showFlag)) := by
  have hfind := hinfo
  rw [get_visualization_info] at hfind
  cases hf : available_visualizations.find? (fun p => p.1 = name) with
  | none => rw [hf] at hfind; simp at hfind
  | some pr =>
    rw [hf] at hfind
    simp at hfind
    have hprmem : pr ∈ available_visualizations := List.mem_of_find?_eq_some hf
    have hspecs : get_visualization_parameters available_visualizations name =
        Except.ok info.parameters := by
      rw [get_visualization_parameters, hinfo]
      rfl
    have hva : validateAll params info.parameters = Except.ok rs := by
      rw [validate_parameters, hspecs] at hrs
      simpa [Bind.bind, Except.bind] using hrs
    have hfa := validateAll_spec params info.parameters rs hva
    have hok : ∀ q ∈ info.parameters, specOk q.2 = true := by
      intro q hq
      exact catalog_specs_ok pr hprmem q (by rw [hfind]; exact hq)
    refine ⟨forall2_map_fst (fun a b hab => hab.1) rs info.parameters hfa, ?_, ?_⟩
    · refine forall2_imp_mem rs info.parameters hfa ?_
      intro r p hpmem hrp
      have hso := hok p hpmem
      refine ⟨hrp.1, ?_, ?_, ?_⟩
      · intro hnone
        have := hrp.2
        rw [hnone] at this
        simp [validateParam_missing] at this
        rw [← this]
      · intro w hw hcaught
        have := hrp.2
        rw [hw] at this
        have hmap : (some w).map Prod.snd = some w.2 := rfl
        rw [hmap] at this
        rw [validateParam_caught p.2 w.2 hcaught] at this
        simp at this
        rw [← this]
      · intro mn mx hmn hmx hnan
        rw [specOk, hmn, hmx] at hso
        simp at hso
        obtain ⟨h1, h2, h3, h4, h5, h6, h7⟩ := hso
        cases hgiven : (params.find? (fun q => q.1 = p.1)).map Prod.snd with
        | none =>
          have := hrp.2
          rw [hgiven] at this
          simp [validateParam_missing] at this
          rw [← this] at hnan ⊢
          exact ⟨h6, h7⟩
        | some w =>
          have := hrp.2
          rw [hgiven] at this
          rcases validateParam_some_cases p.2 w r.2 this with hcase | ⟨v2, hrc⟩
          · rw [hcase] at hnan ⊢
            exact ⟨h6, h7⟩
          · exact rangeCheck_bounds p.2 mn mx hmn hmx h1 h2 h3 h4 h5 v2 r.2 hrc hnan
    · intro showFlag
      have hany : available_visualizations.any (fun p => p.1 = name) = true := by
        rcases List.find?_some hf with hpr1
        refine List.any_eq_true.mpr ⟨pr, hprmem, hpr1⟩
      rw [generate_visualization_script]
      simp [hany, hrs, Bind.bind, Except.bind, pure, Except.pure]

/-- Witness for the amended Claim C6 at the visualization "gauge_field_4d"
with an empty params dict. -/
theorem validate_parameters_spec_witness :
    ([("grid_size", (⟨true, PVal.int 10⟩ : VRes)),
      ("output_dir", ⟨true, PVal.str "gfx/3d"⟩)].map Prod.fst =
      ([("grid_size", (⟨PType.int, PVal.int 10, some (PVal.int 5), some (PVal.int 20)⟩ : ParamSpec)),
        ("output_dir", ⟨PType.string, PVal.str "gfx/3d", Option.none, Option.none⟩)].map Prod.fst)) ∧
    List.Forall₂ (fun (r : String × VRes) (p : String × ParamSpec) =>
      r.1 = p.1 ∧
      (([] : List (String × PVal)).find? (fun q => q.1 = p.1) = Option.none →
        r.2 = ⟨true, p.2.default⟩) ∧
      (∀ w, ([] : List (String × PVal)).find? (fun q => q.1 = p.1) = some w →
        coercionCaught p.2.type w.2 = true → r.2 = ⟨false, p.2.default⟩) ∧
      (∀ mn mx, p.2.min? = some mn → p.2.max? = some mx →
        notNanPVal r.2.value = true →
        pvalLe mn r.2.value = true ∧ pvalLe r.2.value mx = true))
      [("grid_size", ⟨true, PVal.int 10⟩), ("output_dir", ⟨true, PVal.str "gfx/3d"⟩)]
      [("grid_size", ⟨PType.int, PVal.int 10, some (PVal.int 5), some (PVal.int 20)⟩),
       ("output_dir", ⟨PType.string, PVal.str "gfx/3d", Option.none, Option.none⟩)] ∧
    (∀ showFlag,
      generate_visualization_script available_visualizations "gauge_field_4d"
        (some []) showFlag =
        Except.ok (get_visualization_script "gauge_field_4d"
          ([("grid_size", (⟨true, PVal.int 10⟩ : VRes)),
            ("output_dir", ⟨true, PVal.str "gfx/3d"⟩)].map
            (fun p => (p.1, p.2.value))) showFlag)) :=
  validate_parameters_spec "gauge_field_4d" []
    ⟨"Visualize a 4D gauge field configuration",
     [("grid_size", ⟨PType.int, PVal.int 10, some (PVal.int 5), some (PVal.int 20)⟩),
      ("output_dir", ⟨PType.string, PVal.str "gfx/3d", Option.none, Option.none⟩)]⟩
    rfl
    [("grid_size", ⟨true, PVal.int 10⟩), ("output_dir", ⟨true, PVal.str "gfx/3d"⟩)]
    rfl

/-! ## json.dumps (serialisation used by the embedded formula script) -/

/-- Lowercase hex digit. -/
def hexDigitChar (n : Nat) : Char :=
  if n < 10 then Char.ofNat ('0'.toNat + n) else Char.ofNat ('a'.toNat + n - 10)

/-- Four lowercase hex digits. -/
def hex4 (n : Nat) : List Char :=
  [hexDigitChar (n / 4096 % 16), hexDigitChar (n / 256 % 16),
   hexDigitChar (n / 16 % 16), hexDigitChar (n % 16)]

/-- `json.dumps` escaping of one character (defaults: `ensure_ascii=True`;
codepoints beyond the basic plane would use surrogate pairs, which the
repository's data never contains). -/
def escapeJsonChar (c : Char) : List Char :=
  if c = '"' then ['\\', '"']
  else if c = '\\' then ['\\', '\\']
  else if c = '\n' then ['\\', 'n']
  else if c = '\r' then ['\\', 'r']
  else if c = '\t' then ['\\', 't']
  else if c = '\x08' then ['\\', 'b']
  else if c = '\x0c' then ['\\', 'f']
  else if c.toNat < 32 ∨ c.toNat > 126 then '\\' :: 'u' :: hex4 c.toNat
  else [c]

/-- A JSON string literal as `json.dumps` writes it. -/
def escapeJsonString (s : String) : String :=
  String.mk ('"' :: s.data.flatMap escapeJsonChar ++ ['"'])

/-- `json.dumps` with the default separators, with a nesting budget (Python
itself raises `RecursionError` near depth 1000; every value in the
repository is a few levels deep).  Float `repr` is not modelled — the
repository serialises no floats. -/
def jsonDumpsGo : Nat → Json → String
  | _, Json.null => "null"
  | _, Json.bool true => "true"
  | _, Json.bool false => "false"
  | _, Json.int z => toString z
  | _, Json.num q => toString q
  | _, Json.str s => escapeJsonString s
  | 0, _ => ""
  | n + 1, Json.arr xs =>
    "[" ++ String.intercalate ", " (xs.map (jsonDumpsGo n)) ++ "]"
  | n + 1, Json.obj fields =>
    "\x7b" ++ String.intercalate ", "
      (fields.map (fun p => escapeJsonString p.1 ++ ": " ++ jsonDumpsGo n p.2)) ++ "\x7d"

/-- `json.dumps` of a value of the repository's nesting depth. -/
def jsonDumps (j : Json) : String :=
  jsonDumpsGo 1000 j
/-- The `formulas` dictionary defined inside the script that
`FormulaTools.get_formula` writes and runs in a subprocess; the script
prints `json.dumps` of the entry for its argument. -/
def scriptFormulas : List (String × Json) :=
  [("unified_action",
    Json.obj [
       ("name", Json.str "Unified Action (Master Equation)"),
       ("latex", Json.str "S = S_\x7b\\text\x7bgravity\x7d\x7d + S_\x7b\\text\x7bmatter\x7d\x7d + S_\x7b\\text\x7bgauge\x7d\x7d + S_\x7b\\text\x7bquantum\x7d\x7d"),
       ("description", Json.str "The total action is composed of four main parts: gravity, matter, gauge fields, and quantum corrections."),
       ("components", Json.arr [
          Json.str "gravity_action",
          Json.str "matter_action",
          Json.str "gauge_action",
          Json.str "quantum_corrections"])]),
   ("gravity_action",
    Json.obj [
       ("name", Json.str "Gravity Action"),
       ("components", Json.arr [
          Json.obj [
             ("name", Json.str "Einstein-Hilbert Action (Classical Gravity)"),
             ("latex", Json.str "S_\x7b\\text\x7bgravity\x7d\x7d^\x7b\\text\x7bEH\x7d\x7d = \\frac\x7b1\x7d\x7b16\\pi G\x7d \\int d^4x \\, \\sqrt\x7b-g\x7d \\, (R - 2\\Lambda)"),
             ("description", Json.str "The Einstein-Hilbert action describes classical gravity in terms of spacetime curvature.")],
          Json.obj [
             ("name", Json.str "Loop Quantum Gravity Extension"),
             ("latex", Json.str "S_\x7b\\text\x7bgravity\x7d\x7d^\x7b\\text\x7bLQG\x7d\x7d = \\frac\x7b1\x7d\x7b8\\pi G\x7d \\int d^4x \\, \\sqrt\x7b-g\x7d \\, \\epsilon^\x7babc\x7d E_a^i E_b^j F_\x7bij\x7d^c"),
             ("description", Json.str "Loop Quantum Gravity extends classical gravity to the quantum realm using Ashtekar variables.")],
          Json.obj [
             ("name", Json.str "String/M-Theory Gravity"),
             ("latex", Json.str "S_\x7b\\text\x7bgravity\x7d\x7d^\x7b\\text\x7bString\x7d\x7d = \\frac\x7b1\x7d\x7b2\\kappa^2\x7d \\int d^\x7b10\x7dx \\, \\sqrt\x7b-g\x7d \\, e^\x7b-2\\phi\x7d \\left(R + 4 (\\nabla \\phi)^2 - \\frac\x7b1\x7d\x7b12\x7d H_\x7b\\mu\\nu\\rho\x7d H^\x7b\\mu\\nu\\rho\x7d\\right)"),
             ("description", Json.str "String theory describes gravity in terms of vibrating strings in higher dimensions.")]])]),
   ("matter_action",
    Json.obj [
       ("name", Json.str "Matter Action"),
       ("components", Json.arr [
          Json.obj [
             ("name", Json.str "Fermion Fields (Dirac Action)"),
             ("latex", Json.str "S_\x7b\\text\x7bfermion\x7d\x7d = \\int d^4x \\, \\sqrt\x7b-g\x7d \\, \\bar\x7b\\psi\x7d (i \\gamma^\\mu D_\\mu - m) \\psi"),
             ("description", Json.str "The Dirac action describes fermions (matter particles) in curved spacetime.")],
          Json.obj [
             ("name", Json.str "Higgs Field (Spontaneous Symmetry Breaking)"),
             ("latex", Json.str "S_\x7b\\text\x7bHiggs\x7d\x7d = \\int d^4x \\, \\sqrt\x7b-g\x7d \\, \\left[ (D_\\mu \\phi)^\\dagger (D^\\mu \\phi) - V(\\phi) \\right]"),
             ("description", Json.str "The Higgs action describes the Higgs field that gives mass to particles through spontaneous symmetry breaking.")]])]),
   ("gauge_action",
    Json.obj [
       ("name", Json.str "Gauge Field Action"),
       ("components", Json.arr [
          Json.obj [
             ("name", Json.str "Yang-Mills Action (Non-Abelian Gauge Fields)"),
             ("latex", Json.str "S_\x7b\\text\x7bgauge\x7d\x7d = -\\frac\x7b1\x7d\x7b4\x7d \\int d^4x \\, \\sqrt\x7b-g\x7d \\, F_\x7b\\mu\\nu\x7d^a F^\x7b\\mu\\nu\x7d_a"),
             ("description", Json.str "The Yang-Mills action describes non-Abelian gauge fields that mediate the strong and weak forces.")],
          Json.obj [
             ("name", Json.str "Supersymmetric Gauge Fields"),
             ("latex", Json.str "S_\x7b\\text\x7bSUSY-gauge\x7d\x7d = \\int d^4x \\, \\left[ -\\frac\x7b1\x7d\x7b4\x7d F_\x7b\\mu\\nu\x7d F^\x7b\\mu\\nu\x7d + i \\bar\x7b\\lambda\x7d \\gamma^\\mu D_\\mu \\lambda \\right]"),
             ("description", Json.str "Supersymmetric gauge fields include both gauge bosons and their fermionic partners (gauginos).")]])]),
   ("quantum_corrections",
    Json.obj [
       ("name", Json.str "Quantum Corrections"),
       ("components", Json.arr [
          Json.obj [
             ("name", Json.str "Path Integral Formulation"),
             ("latex", Json.str "Z = \\int \\mathcal\x7bD\x7d\\phi \\, e^\x7bi S[\\phi]\x7d"),
             ("description", Json.str "The path integral formulation describes quantum fields by integrating over all possible field configurations.")],
          Json.obj [
             ("name", Json.str "Loop Corrections and Renormalization"),
             ("latex", Json.str "S_\x7b\\text\x7bquantum\x7d\x7d = \\sum_\x7bn=1\x7d^\x7b\\infty\x7d \\hbar^n S_n"),
             ("description", Json.str "Loop corrections account for quantum fluctuations and virtual particles in quantum field theory.")]])]),
   ("full_master_equation",
    Json.obj [
       ("name", Json.str "Full Master Equation"),
       ("latex", Json.str "S = \\frac\x7b1\x7d\x7b16\\pi G\x7d \\int d^4x \\, \\sqrt\x7b-g\x7d \\, (R - 2\\Lambda) + \\int d^4x \\, \\sqrt\x7b-g\x7d \\left[ \\bar\x7b\\psi\x7d (i \\gamma^\\mu D_\\mu - m) \\psi + (D_\\mu \\phi)^\\dagger (D^\\mu \\phi) - V(\\phi) - \\frac\x7b1\x7d\x7b4\x7d F_\x7b\\mu\\nu\x7d^a F^\x7b\\mu\\nu\x7d_a \\right] + \\sum_\x7bn=1\x7d^\x7b\\infty\x7d \\hbar^n S_n"),
       ("description", Json.str "The full master equation combines all components of the Theory of Everything into a single mathematical framework.")])]


/-! ## toe_formulas.py : FormulaTools

The state (catalog and relationship dictionaries built in `__init__`) is
threaded through every operation so that mutation, if any occurred, would be
visible.  `get_formula` runs an embedded script in a subprocess; the world
parameter `fail` gives, per script argument, `none` when the subprocess runs
the script normally (exit 0, printing `json.dumps` of the requested entry)
and `some output` when it fails to run (nonzero exit with that output). -/

/-- `self.formula_catalog` of `FormulaTools.__init__`. -/
def formula_catalog : List (String × String) :=
  [("unified_action", "The unified action (master equation)"),
   ("gravity_action", "The gravity action components"),
   ("matter_action", "The matter action components"),
   ("gauge_action", "The gauge field action components"),
   ("quantum_corrections", "The quantum corrections components"),
   ("full_master_equation", "The full master equation")]

/-- `self.formula_relationships` of `FormulaTools.__init__`. -/
def formula_relationships : List (String × List String) :=
  [("unified_action", ["gravity_action", "matter_action", "gauge_action", "quantum_corrections"]),
   ("gravity_action", ["full_master_equation"]),
   ("matter_action", ["full_master_equation"]),
   ("gauge_action", ["full_master_equation"]),
   ("quantum_corrections", ["full_master_equation"]),
   ("full_master_equation", [])]

/-- The two configuration dictionaries a `FormulaTools` instance holds. -/
structure FTState where
  formula_catalog : List (String × String)
  formula_relationships : List (String × List String)
deriving DecidableEq

/-- The state of a freshly constructed `FormulaTools`. -/
def initFormulaTools : FTState :=
  ⟨formula_catalog, formula_relationships⟩

/-- The message of the `ValueError` raised for an unknown formula name. -/
def unknownFormulaMsg (st : FTState) (name : String) : String :=
  "Unknown formula: " ++ name ++ ". Available formulas: " ++
    pyListRepr (st.formula_catalog.map Prod.fst)

/-- What the embedded script prints for its argument. -/
def get_formula_script_output (formula_name : String) : String :=
  jsonDumps (match scriptFormulas.find? (fun p => p.1 = formula_name) with
    | some p => p.2
    | Option.none => Json.str ("Unknown formula: " ++ formula_name))

/-- The subprocess outcome for one run of the embedded formula script. -/
def scriptRun (fail : String → Option String) (arg : String) : ProcResult :=
  match fail arg with
  | some errOutput => ⟨1, errOutput⟩
  | Option.none => ⟨0, get_formula_script_output arg ++ "\n"⟩

/-- `FormulaTools.list_formulas`. -/
def list_formulas (st : FTState) : FTState × List (String × String) :=
  (st, st.formula_catalog)

/-- `FormulaTools.get_formula`. -/
def get_formula (fail : String → Option String) (st : FTState)
    (formula_name : String) : FTState × Except PyErr Json :=
  if ¬ st.formula_catalog.any (fun p => p.1 = formula_name) then
    (st, Except.error (PyErr.valueError (unknownFormulaMsg st formula_name)))
  else
    let result := run_script_safely (scriptRun fail formula_name)
    match unified_load_json_safely result with
    | Option.none => (st, Except.ok (Json.obj [("error", Json.str result)]))
    | some parsed => (st, Except.ok parsed)

/-- Is this JSON value a Python `str`? (`isinstance(c, str)`). -/
def isJsonStr : Json → Bool
  | Json.str _ => true
  | _ => false

/-- The string payloads of a list of JSON strings. -/
def jsonStrNames (xs : List Json) : List String :=
  xs.filterMap (fun x => match x with
    | Json.str s => some s
    | _ => Option.none)

/-- First-occurrence deduplication (models Python `set(...)` construction;
set iteration order is implementation detail and is modelled as
first-occurrence order). -/
def dedupFirst (l : List String) : List String :=
  l.foldl (fun acc x => if acc.contains x then acc else acc ++ [x]) []

/-- The components part of `FormulaTools.explore_formula`. -/
def exploreComponents (fail : String → Option String) (st : FTState)
    (formula : Json) : Except PyErr (List Json) := do
  let has ← pyContainsKey "components" formula
  if has then do
    let comps ← pySubscript formula "components"
    match comps with
    | Json.arr xs =>
      if xs.all isJsonStr then
        xs.foldlM (fun acc x =>
          match x with
          | Json.str cn => do
            let comp ← (get_formula fail st cn).2
            pure (acc ++ [Json.obj [("name", Json.str cn), ("formula", comp)]])
          | _ => pure acc) []
      else pure xs
    | _ => pure []
  else pure []

/-- The related-formulas part of `FormulaTools.explore_formula`. -/
def exploreRelated (fail : String → Option String) (st : FTState)
    (formula_name : String) : Except PyErr (List Json) :=
  st.formula_relationships.foldlM (fun acc rel =>
    if rel.2.contains formula_name then do
      let rf ← (get_formula fail st rel.1).2
      pure (acc ++ [Json.obj [("name", Json.str rel.1), ("formula", rf)]])
    else pure acc) []

/-- `FormulaTools.explore_formula`. -/
def explore_formula (fail : String → Option String) (st : FTState)
    (formula_name : String) : FTState × Except PyErr Json :=
  if ¬ st.formula_catalog.any (fun p => p.1 = formula_name) then
    (st, Except.error (PyErr.valueError (unknownFormulaMsg st formula_name)))
  else
    (st, do
      let formula ← (get_formula fail st formula_name).2
      let components ← exploreComponents fail st formula
      let related ← exploreRelated fail st formula_name
      pure (Json.obj [("formula", formula), ("components", Json.arr components),
                      ("related_formulas", Json.arr related)]))

/-- The all-string `components` list of a formula dict, or `[]`
(`direct_dependencies` extraction of `get_formula_dependencies`). -/
def directComponents (formula : Json) : Except PyErr (List String) := do
  let has ← pyContainsKey "components" formula
  if has then do
    let comps ← pySubscript formula "components"
    match comps with
    | Json.arr xs => if xs.all isJsonStr then pure (jsonStrNames xs) else pure []
    | _ => pure []
  else pure []

/-- `FormulaTools.get_formula_dependencies`. -/
def get_formula_dependencies (fail : String → Option String) (st : FTState)
    (formula_name : String) : FTState × Except PyErr Json :=
  if ¬ st.formula_catalog.any (fun p => p.1 = formula_name) then
    (st, Except.error (PyErr.valueError (unknownFormulaMsg st formula_name)))
  else
    (st, do
      let formula ← (get_formula fail st formula_name).2
      let direct ← directComponents formula
      let indirect ← direct.foldlM (fun acc dep => do
        let df ← (get_formula fail st dep).2
        let dc ← directComponents df
        pure (acc ++ dc)) ([] : List String)
      let indirect2 := (dedupFirst indirect).filter (fun n => ¬ direct.contains n)
      pure (Json.obj [("formula", formula),
                      ("direct_dependencies", Json.arr (direct.map Json.str)),
                      ("indirect_dependencies", Json.arr (indirect2.map Json.str))]))

/-- The optional description block appended by `export_formula_to_latex`
(for the formula and for each component). -/
def descPart (j : Json) (acc : String) : Except PyErr String := do
  let hasD ← pyContainsKey "description" j
  if hasD then do
    let d ← pySubscript j "description"
    pure (acc ++ pyStrOf d ++ "\n\n")
  else pure acc

/-- The optional equation block appended by `export_formula_to_latex`. -/
def latexPart (j : Json) (acc : String) : Except PyErr String := do
  let hasL ← pyContainsKey "latex" j
  if hasL then do
    let l ← pySubscript j "latex"
    pure (acc ++ "\\begin\x7bequation\x7d\n" ++ pyStrOf l ++ "\n\\end\x7bequation\x7d\n\n")
  else pure acc

/-- One `\subsection` block of `export_formula_to_latex`. -/
def componentLatex (component : Json) : Except PyErr String := do
  let nm ← pySubscript component "name"
  let s1 ← descPart component ("\\subsection\x7b" ++ pyStrOf nm ++ "\x7d\n\n")
  latexPart component s1

/-- The components section of `export_formula_to_latex`. -/
def exportComponents (fail : String → Option String) (st : FTState)
    (formula : Json) : Except PyErr String := do
  let has ← pyContainsKey "components" formula
  if has then do
    let comps ← pySubscript formula "components"
    match comps with
    | Json.arr xs =>
      if xs.all isJsonStr then
        xs.foldlM (fun acc x =>
          match x with
          | Json.str cn => do
            let comp ← (get_formula fail st cn).2
            let cl ← componentLatex comp
            pure (acc ++ cl)
          | _ => pure acc) "\\section\x7bComponents\x7d\n\n"
      else
        xs.foldlM (fun acc c => do
          let cl ← componentLatex c
          pure (acc ++ cl)) "\\section\x7bComponents\x7d\n\n"
    | _ => pure ""
  else pure ""

/-- The document preamble of `export_formula_to_latex`. -/
def exportPreamble : String :=
  "\\documentclass\x7barticle\x7d\n\\usepackage\x7bamsmath\x7d\n" ++
  "\\usepackage\x7bamssymb\x7d\n\\usepackage\x7bphysics\x7d\n\\begin\x7bdocument\x7d\n\n"

/-- `FormulaTools.export_formula_to_latex`. -/
def export_formula_to_latex (fail : String → Option String) (st : FTState)
    (formula_name : String) : FTState × Except PyErr String :=
  if ¬ st.formula_catalog.any (fun p => p.1 = formula_name) then
    (st, Except.error (PyErr.valueError (unknownFormulaMsg st formula_name)))
  else
    (st, do
      let formula ← (get_formula fail st formula_name).2
      let nm ← pySubscript formula "name"
      let s1 ← descPart formula (exportPreamble ++ "\\section\x7b" ++ pyStrOf nm ++ "\x7d\n\n")
      let s2 ← latexPart formula s1
      let comps ← exportComponents fail st formula
      pure (s2 ++ comps ++ "\\end\x7bdocument\x7d"))

/-- Stable descending insertion by score (models Python's stable `sorted`
with `reverse=True` on the score). -/
def insertDesc (x : String × ℤ) : List (String × ℤ) → List (String × ℤ)
  | [] => [x]
  | y :: rest => if y.2 < x.2 then x :: y :: rest else y :: insertDesc x rest

/-- One field contribution to a search score: membership of the query in the
lowercased field when the field is present and a string. -/
def scoreField (formula : Json) (key : String) (query_lc : String) (pts : ℤ) :
    Except PyErr ℤ := do
  let has ← pyContainsKey key formula
  if has then do
    let v ← pySubscript formula key
    match v with
    | Json.str s => pure (if hasInfix query_lc.data (pyLower s).data then pts else 0)
    | _ => throw (PyErr.attributeError "lower")
  else pure 0

/-- The score of one catalog entry in `FormulaTools.search_formulas`. -/
def searchScore (fail : String → Option String) (st : FTState)
    (query_lc : String) (name description : String) : Except PyErr ℤ := do
  let s1 : ℤ := if hasInfix query_lc.data (pyLower name).data then 3 else 0
  let s2 : ℤ := if hasInfix query_lc.data (pyLower description).data then 2 else 0
  let formula ← (get_formula fail st name).2
  let f1 ← scoreField formula "name" query_lc 2
  let f2 ← scoreField formula "description" query_lc 1
  let f3 ← scoreField formula "latex" query_lc 1
  pure (s1 + s2 + f1 + f2 + f3)

/-- `FormulaTools.search_formulas`. -/
def search_formulas (fail : String → Option String) (st : FTState)
    (query : String) : FTState × Except PyErr (List (String × ℤ)) :=
  (st, do
    let q := pyLower query
    let scored ← st.formula_catalog.foldlM (fun acc p => do
      let sc ← searchScore fail st q p.1 p.2
      pure (if 0 < sc then acc ++ [(p.1, sc)] else acc)) ([] : List (String × ℤ))
    pure (scored.foldl (fun acc x => insertDesc x acc) []))

/-- The `components` list of a formula dict when present, a list, and all
strings (the guard used by `compare_formulas`). -/
def componentsIfStrList (formula : Json) : Except PyErr (Option (List String)) := do
  let has ← pyContainsKey "components" formula
  if has then do
    let comps ← pySubscript formula "components"
    match comps with
    | Json.arr xs =>
      if xs.all isJsonStr then pure (some (jsonStrNames xs)) else pure Option.none
    | _ => pure Option.none
  else pure Option.none

/-- `FormulaTools.compare_formulas`. -/
def compare_formulas (fail : String → Option String) (st : FTState)
    (formula_names : List String) : FTState × Except PyErr Json :=
  (st,
    if formula_names.isEmpty then
      Except.error (PyErr.valueError "No formulas specified for comparison")
    else
      match formula_names.find? (fun n => ¬ st.formula_catalog.any (fun p => p.1 = n)) with
      | some bad => Except.error (PyErr.valueError (unknownFormulaMsg st bad))
      | Option.none => do
        let formulas ← formula_names.foldlM (fun acc n => do
          let f ← (get_formula fail st n).2
          pure (upsertField acc n f)) ([] : List (String × Json))
        let common ← formulas.foldlM (fun (acc : List String) pf => do
          let dc ← componentsIfStrList pf.2
          match dc with
          | Option.none => pure acc
          | some names =>
            if acc.isEmpty then pure (dedupFirst names)
            else pure (acc.filter (fun a => names.contains a))) ([] : List String)
        let unique ← formulas.foldlM (fun (acc : List (String × Json)) pf => do
          let dc ← componentsIfStrList pf.2
          match dc with
          | Option.none => pure acc
          | some names =>
            let u := (dedupFirst names).filter (fun n => ¬ common.contains n)
            if u.isEmpty then pure acc
            else pure (acc ++ [(pf.1, Json.arr (u.map Json.str))])) ([] : List (String × Json))
        pure (Json.obj [("formulas", Json.obj formulas),
                        ("common_components", Json.arr (common.map Json.str)),
                        ("unique_components", Json.obj unique)]))

/-! ## core/agents/toe_agent.py : AgentTools

`grep` over the class shows `session_id`, `session_start_time` and
`agent_mode_enabled` are assigned only in `__init__`, so the state any later
method call reads is the state built there.  `random.getrandbits(32)` is the
parameter `r`; `time.time()` values are idealised as rationals. -/

/-- The attributes an `AgentTools` instance holds. -/
structure AgentState where
  session_id : String
  session_start_time : ℚ
  agent_mode_enabled : Bool
deriving DecidableEq

/-- Reversed lowercase hex digits of `n` (with enough budget for every
32-bit value). -/
def hexDigitsRev : Nat → Nat → List Char
  | 0, _ => []
  | fuel + 1, n => if n = 0 then [] else hexDigitChar (n % 16) :: hexDigitsRev fuel (n / 16)

/-- Python `f"\x7br:08x\x7d"`: lowercase hex, zero-padded to eight digits. -/
def pyFormat08x (n : Nat) : List Char :=
  let ds := (hexDigitsRev 16 n).reverse
  let ds := if ds = [] then ['0'] else ds
  List.replicate (8 - ds.length) '0' ++ ds

/-- `AgentTools._generate_session_id`. -/
def generate_session_id (r : Nat) : String :=
  "toe-" ++ String.mk (pyFormat08x r)

/-- `AgentTools.__init__`: fresh session id from the 32 random bits, start
time, agent mode enabled. -/
def initAgentTools (r : Nat) (t : ℚ) : AgentState :=
  ⟨generate_session_id r, t, true⟩

/-- The dict returned by `AgentTools.get_session_info`. -/
structure SessionInfo where
  session_id : String
  session_start_time : ℚ
  session_duration : ℚ
  agent_mode_enabled : Bool
deriving DecidableEq

/-- `AgentTools.get_session_info`, at wall-clock time `now`. -/
def get_session_info (st : AgentState) (now : ℚ) : SessionInfo :=
  ⟨st.session_id, st.session_start_time, now - st.session_start_time,
   st.agent_mode_enabled⟩

/-- The sixteen lowercase hexadecimal digits. -/
def hexLowerChars : List Char :=
  "0123456789abcdef".data

theorem hexDigitChar_mem : ∀ m, m < 16 → hexDigitChar m ∈ hexLowerChars := by
  decide

theorem hexDigitsRev_length :
    ∀ (fuel k n : Nat), n < 16 ^ k → k ≤ fuel → (hexDigitsRev fuel n).length ≤ k := by
  intro fuel
  induction fuel with
  | zero => intro k n _ _; simp [hexDigitsRev]
  | succ fuel ih =>
    intro k n hn hk
    by_cases h0 : n = 0
    · simp [hexDigitsRev, h0]
    · rw [hexDigitsRev]
      simp [h0]
      cases k with
      | zero =>
        exfalso
        have : n = 0 := by
          have := hn
          simp at this
          omega
        exact h0 this
      | succ k =>
        have hdiv : n / 16 < 16 ^ k := by
          have : n < 16 ^ (k + 1) := hn
          rw [pow_succ] at this
          omega
        have := ih k (n / 16) hdiv (by omega)
        omega

theorem hexDigitsRev_mem :
    ∀ (fuel n : Nat), ∀ c ∈ hexDigitsRev fuel n, c ∈ hexLowerChars := by
  intro fuel
  induction fuel with
  | zero => intro n c hc; simp [hexDigitsRev] at hc
  | succ fuel ih =>
    intro n c hc
    rw [hexDigitsRev] at hc
    by_cases h0 : n = 0
    · simp [h0] at hc
    · simp [h0] at hc
      rcases hc with hc | hc
      · rw [hc]
        exact hexDigitChar_mem _ (Nat.mod_lt _ (by omega))
      · exact ih _ c hc

/-- Claim C8: the session id generated at initialisation is `"toe-"` followed
by exactly eight lowercase hexadecimal digits, and `get_session_info` — at
any later wall-clock time, on the same instance (whose attributes no method
reassigns after `__init__`) — returns that id in its `session_id` field and
`True` in `agent_mode_enabled`. -/
theorem session_id_format (r : Nat) (hr : r < 2 ^ 32) (t now : ℚ) :
    ∃ ds : List Char,
      (initAgentTools r t).session_id = "toe-" ++ String.mk ds ∧
      ds.length = 8 ∧ (∀ c ∈ ds, c ∈ hexLowerChars) ∧
      (get_session_info (initAgentTools r t) now).session_id =
        (initAgentTools r t).session_id ∧
      (get_session_info (initAgentTools r t) now).agent_mode_enabled = true := by
  refine ⟨pyFormat08x r, rfl, ?_, ?_, rfl, rfl⟩
  · rw [pyFormat08x]
    have hlen : (hexDigitsRev 16 r).length ≤ 8 := by
      refine hexDigitsRev_length 16 8 r ?_ (by omega)
      calc r < 2 ^ 32 := hr
        _ = 16 ^ 8 := by norm_num
    simp only [List.length_append, List.length_replicate, List.length_reverse]
    by_cases hz : (hexDigitsRev 16 r).reverse = []
    · simp [hz]
    · simp [hz]
      omega
  · intro c hc
    rw [pyFormat08x] at hc
    simp only [List.mem_append] at hc
    rcases hc with hc | hc
    · have := List.eq_of_mem_replicate hc
      rw [this]
      decide
    · by_cases hz : (hexDigitsRev 16 r).reverse = []
      · rw [hz] at hc
        simp at hc
        rw [hc]
        decide
      · simp [hz] at hc
        exact hexDigitsRev_mem 16 r c hc

/-- Witness for Claim C8 at the random draw 3735928559 and concrete times. -/
theorem session_id_format_witness :
    ∃ ds : List Char,
      (initAgentTools 3735928559 0).session_id = "toe-" ++ String.mk ds ∧
      ds.length = 8 ∧ (∀ c ∈ ds, c ∈ hexLowerChars) ∧
      (get_session_info (initAgentTools 3735928559 0) 5).session_id =
        (initAgentTools 3735928559 0).session_id ∧
      (get_session_info (initAgentTools 3735928559 0) 5).agent_mode_enabled = true :=
  session_id_format 3735928559 (by decide) 0 5

/-! ### Claim C9 infrastructure: tracking which operations can raise
`ValueError` -/

/-- Does this result carry a raised `ValueError`? -/
def isValueError {α : Type} : Except PyErr α → Bool
  | Except.error (PyErr.valueError _) => true
  | _ => false

theorem bind_noVE {α β : Type} (x : Except PyErr α) (f : α → Except PyErr β)
    (hx : isValueError x = false)
    (hf : ∀ a, x = Except.ok a → isValueError (f a) = false) :
    isValueError (x >>= f) = false := by
  cases x with
  | error e =>
    rw [show ((Except.error e : Except PyErr α) >>= f) = Except.error e from rfl]
    cases e <;> exact hx
  | ok a =>
    rw [show ((Except.ok a : Except PyErr α) >>= f) = f a from rfl]
    exact hf a rfl

theorem foldlM_noVE {α β : Type} (f : β → α → Except PyErr β) (l : List α) :
    ∀ b : β, (∀ b' a, a ∈ l → isValueError (f b' a) = false) →
      isValueError (l.foldlM f b) = false := by
  induction l with
  | nil => intro b _; rfl
  | cons a rest ih =>
    intro b h
    rw [List.foldlM_cons]
    refine bind_noVE _ _ (h b a (List.mem_cons_self a rest)) ?_
    intro b' _
    exact ih b' (fun b'' a' ha' => h b'' a' (List.mem_cons_of_mem a ha'))

theorem pure_noVE {α : Type} (a : α) : isValueError (pure a : Except PyErr α) = false := rfl

theorem pyContainsKey_noVE (key : String) (j : Json) :
    isValueError (pyContainsKey key j) = false := by
  cases j <;> rfl

theorem pySubscript_noVE (j : Json) (key : String) :
    isValueError (pySubscript j key) = false := by
  cases j <;> simp [pySubscript, isValueError]
  case obj fields =>
    cases fields.find? (fun p => p.1 = key) <;> simp [isValueError]

theorem scoreField_noVE (formula : Json) (key query_lc : String) (pts : ℤ) :
    isValueError (scoreField formula key query_lc pts) = false := by
  rw [scoreField]
  refine bind_noVE _ _ (pyContainsKey_noVE _ _) ?_
  intro has _
  cases has with
  | true =>
    simp only [if_true]
    refine bind_noVE _ _ (pySubscript_noVE _ _) ?_
    intro v _
    cases v <;> rfl
  | false => rfl

theorem bind_noVE2 {α β : Type} (x : Except PyErr α) (f : α → Except PyErr β)
    (hx : isValueError x = false) (hf : ∀ a, isValueError (f a) = false) :
    isValueError (x >>= f) = false :=
  bind_noVE x f hx (fun a _ => hf a)

theorem descPart_noVE (j : Json) (acc : String) :
    isValueError (descPart j acc) = false := by
  rw [descPart]
  refine bind_noVE2 _ _ (pyContainsKey_noVE _ _) (fun hasD => ?_)
  cases hasD with
  | true =>
    rw [if_pos rfl]
    exact bind_noVE2 _ _ (pySubscript_noVE _ _) (fun d => rfl)
  | false => rw [if_neg (by simp)]; rfl

theorem latexPart_noVE (j : Json) (acc : String) :
    isValueError (latexPart j acc) = false := by
  rw [latexPart]
  refine bind_noVE2 _ _ (pyContainsKey_noVE _ _) (fun hasL => ?_)
  cases hasL with
  | true =>
    rw [if_pos rfl]
    exact bind_noVE2 _ _ (pySubscript_noVE _ _) (fun l => rfl)
  | false => rw [if_neg (by simp)]; rfl

theorem componentLatex_noVE (component : Json) :
    isValueError (componentLatex component) = false := by
  rw [componentLatex]
  refine bind_noVE2 _ _ (pySubscript_noVE _ _) (fun nm => ?_)
  exact bind_noVE2 _ _ (descPart_noVE _ _) (fun s1 => latexPart_noVE _ _)

/-- The all-string `components` names of a parsed formula dict (empty for
anything else). -/
def componentNamesOf (j : Json) : List String :=
  match j with
  | Json.obj fields =>
    match fields.find? (fun p => p.1 = "components") with
    | some p =>
      match p.2 with
      | Json.arr xs => if xs.all isJsonStr then jsonStrNames xs else []
      | _ => []
    | Option.none => []
  | _ => []

/-- Every all-string component name of this value is a catalog key. -/
def goodComponents (j : Json) : Bool :=
  (componentNamesOf j).all (fun n => initFormulaTools.formula_catalog.any (fun p => p.1 = n))

/-- Strings of the form `"Error: ..."` are not valid JSON: the parse the
formula tools apply to a failed subprocess output always returns `none`. -/
theorem unified_jsonLoads_error_prefix (s : String) :
    unified_load_json_safely ("Error: " ++ s) = Option.none := by
  have hdata : ("Error: " ++ s).data = 'E' :: ("rror: ".data ++ s.data) := by
    have h0 : "Error: ".data = 'E' :: "rror: ".data := rfl
    simp [String.data_append, h0]
  unfold unified_load_json_safely jsonLoads
  rw [hdata]
  have hws : skipWs ('E' :: ("rror: ".data ++ s.data))
      = 'E' :: ("rror: ".data ++ s.data) := by
    simp [skipWs, List.dropWhile_cons, isJsonWs]
  rw [hws]
  simp [parseValue, isDigitChar]

/-- For a known name, `get_formula` returns the parsed subprocess output, or
the error dict when the output is not JSON. -/
theorem get_formula_cases (fail : String → Option String) (st : FTState)
    (name : String) (h : st.formula_catalog.any (fun p => p.1 = name) = true) :
    (get_formula fail st name).2 =
      Except.ok (match unified_load_json_safely (run_script_safely (scriptRun fail name)) with
        | some parsed => parsed
        | Option.none =>
          Json.obj [("error", Json.str (run_script_safely (scriptRun fail name)))]) := by
  rw [get_formula]
  rw [if_neg (by simp [h])]
  cases hp : unified_load_json_safely (run_script_safely (scriptRun fail name)) <;> simp [hp]

/-- For a known name, `get_formula` does not raise `ValueError` (both parse
outcomes return a value). -/
theorem get_formula_noVE (fail : String → Option String) (st : FTState)
    (name : String) (h : st.formula_catalog.any (fun p => p.1 = name) = true) :
    isValueError (get_formula fail st name).2 = false := by
  rw [get_formula_cases fail st name h]
  rfl

/-- For an unknown name, `get_formula` raises `ValueError`. -/
theorem get_formula_VE (fail : String → Option String) (st : FTState)
    (name : String) (h : st.formula_catalog.any (fun p => p.1 = name) = false) :
    isValueError (get_formula fail st name).2 = true := by
  rw [get_formula]
  rw [if_pos (by simp [h])]
  rfl

/-- Auxiliary form of the data fact behind `get_formula_good`: the honest
subprocess output for this name parses to a value whose component names are
catalog keys. -/
theorem get_formula_good_aux (fail : String → Option String) (name : String)
    (h : initFormulaTools.formula_catalog.any (fun p => p.1 = name) = true)
    (hgood : goodComponents
      (match unified_load_json_safely (pyStrip (get_formula_script_output name ++ "\n")) with
        | some parsed => parsed
        | Option.none =>
          Json.obj [("error", Json.str (pyStrip (get_formula_script_output name ++ "\n")))]) = true) :
    ∀ j, (get_formula fail initFormulaTools name).2 = Except.ok j →
      goodComponents j = true := by
  intro j hj
  rw [get_formula_cases fail initFormulaTools name h] at hj
  simp only [Except.ok.injEq] at hj
  rw [← hj]
  cases hf : fail name with
  | some e =>
    have hsr : run_script_safely (scriptRun fail name) = "Error: " ++ e := by
      simp [scriptRun, hf, run_script_safely]
    rw [hsr, unified_jsonLoads_error_prefix e]
    rfl
  | none =>
    have hsr : run_script_safely (scriptRun fail name) =
        pyStrip (get_formula_script_output name ++ "\n") := by
      simp [scriptRun, hf, run_script_safely]
    rw [hsr]
    exact hgood

/-- Whatever the world, the value a known-name `get_formula` returns has only
catalog keys as all-string components. -/
theorem get_formula_good (fail : String → Option String) (name : String)
    (h : name ∈ initFormulaTools.formula_catalog.map Prod.fst) :
    ∀ j, (get_formula fail initFormulaTools name).2 = Except.ok j →
      goodComponents j = true := by
  fin_cases h
  · exact get_formula_good_aux fail "unified_action" (by decide) (by rfl)
  · exact get_formula_good_aux fail "gravity_action" (by decide) (by rfl)
  · exact get_formula_good_aux fail "matter_action" (by decide) (by rfl)
  · exact get_formula_good_aux fail "gauge_action" (by decide) (by rfl)
  · exact get_formula_good_aux fail "quantum_corrections" (by decide) (by rfl)
  · exact get_formula_good_aux fail "full_master_equation" (by decide) (by rfl)

/-- When the components lookup of `j` yields an all-string list and `j` has
good components, each of those strings is a catalog key. -/
theorem componentNames_known (j : Json) (xs : List Json)
    (hsub : pySubscript j "components" = Except.ok (Json.arr xs))
    (hall : xs.all isJsonStr = true) (hj : goodComponents j = true) :
    ∀ cn, Json.str cn ∈ xs →
      initFormulaTools.formula_catalog.any (fun p => p.1 = cn) = true := by
  intro cn hcn
  cases j with
  | obj fields =>
    rw [pySubscript] at hsub
    cases hfind : fields.find? (fun p => p.1 = "components") with
    | none => rw [hfind] at hsub; simp at hsub
    | some p =>
      rw [hfind] at hsub
      simp at hsub
      rw [goodComponents, componentNamesOf, hfind] at hj
      dsimp only at hj
      rw [hsub] at hj
      dsimp only at hj
      rw [if_pos hall] at hj
      rw [List.all_eq_true] at hj
      refine hj cn ?_
      rw [jsonStrNames, List.mem_filterMap]
      exact ⟨Json.str cn, hcn, rfl⟩
  | null => simp [pySubscript, isValueError] at hsub
  | bool b => simp [pySubscript, isValueError] at hsub
  | int z => simp [pySubscript, isValueError] at hsub
  | num q => simp [pySubscript, isValueError] at hsub
  | str s => simp [pySubscript, isValueError] at hsub
  | arr ys => simp [pySubscript, isValueError] at hsub

/-- `exploreComponents` raises no `ValueError` when the formula value has
good components. -/
theorem exploreComponents_noVE (fail : String → Option String) (j : Json)
    (hj : goodComponents j = true) :
    isValueError (exploreComponents fail initFormulaTools j) = false := by
  rw [exploreComponents]
  refine bind_noVE _ _ (pyContainsKey_noVE _ _) ?_
  intro has _
  cases has with
  | false => rw [if_neg (by simp)]; rfl
  | true =>
    rw [if_pos rfl]
    refine bind_noVE _ _ (pySubscript_noVE _ _) ?_
    intro comps hsub
    cases comps with
    | arr xs =>
      dsimp only
      by_cases hall : xs.all isJsonStr = true
      · rw [if_pos hall]
        refine foldlM_noVE _ _ _ ?_
        intro acc x hx
        cases x with
        | str cn =>
          refine bind_noVE2 _ _ ?_ (fun comp => rfl)
          exact get_formula_noVE fail initFormulaTools cn
            (componentNames_known j xs hsub hall hj cn hx)
        | null => rfl
        | bool b => rfl
        | int z => rfl
        | num q => rfl
        | obj f2 => rfl
        | arr a2 => rfl
      · rw [if_neg hall]; rfl
    | null => rfl
    | bool b => rfl
    | int z => rfl
    | num q => rfl
    | str s => rfl
    | obj f2 => rfl

/-- Every relationship key is a catalog key. -/
theorem relationship_keys_known :
    ∀ rel ∈ initFormulaTools.formula_relationships,
      initFormulaTools.formula_catalog.any (fun p => p.1 = rel.1) = true := by
  decide

/-- `exploreRelated` raises no `ValueError`. -/
theorem exploreRelated_noVE (fail : String → Option String) (name : String) :
    isValueError (exploreRelated fail initFormulaTools name) = false := by
  rw [exploreRelated]
  refine foldlM_noVE _ _ _ ?_
  intro acc rel hrel
  by_cases hmem : rel.2.contains name = true
  · rw [if_pos hmem]
    refine bind_noVE2 _ _ ?_ (fun rf => rfl)
    exact get_formula_noVE fail initFormulaTools rel.1 (relationship_keys_known rel hrel)
  · rw [if_neg hmem]; rfl

/-- `directComponents` never raises `ValueError`. -/
theorem directComponents_noVE (j : Json) :
    isValueError (directComponents j) = false := by
  rw [directComponents]
  refine bind_noVE _ _ (pyContainsKey_noVE _ _) ?_
  intro has _
  cases has with
  | false => rw [if_neg (by simp)]; rfl
  | true =>
    rw [if_pos rfl]
    refine bind_noVE _ _ (pySubscript_noVE _ _) ?_
    intro comps _
    cases comps with
    | arr xs =>
      dsimp only
      by_cases hall : xs.all isJsonStr = true
      · rw [if_pos hall]; rfl
      · rw [if_neg hall]; rfl
    | null => rfl
    | bool b => rfl
    | int z => rfl
    | num q => rfl
    | str s => rfl
    | obj f2 => rfl

theorem except_ok_bind {α β : Type} (a : α) (f : α → Except PyErr β) :
    ((Except.ok a : Except PyErr α) >>= f) = f a := rfl

/-- The names `directComponents` extracts from a good value are catalog
keys. -/
theorem directComponents_known (j : Json) (d : List String)
    (hd : directComponents j = Except.ok d) (hj : goodComponents j = true) :
    ∀ n ∈ d, initFormulaTools.formula_catalog.any (fun p => p.1 = n) = true := by
  intro n hn
  rw [directComponents] at hd
  cases hck : pyContainsKey "components" j with
  | error e => rw [hck] at hd; simp [Bind.bind, Except.bind] at hd
  | ok has =>
    rw [hck, except_ok_bind] at hd
    cases has with
    | false =>
      rw [if_neg (by simp)] at hd
      simp [pure, Except.pure] at hd
      subst hd
      simp at hn
    | true =>
      rw [if_pos rfl] at hd
      cases hsub : pySubscript j "components" with
      | error e => rw [hsub] at hd; simp [Bind.bind, Except.bind] at hd
      | ok comps =>
        rw [hsub, except_ok_bind] at hd
        cases comps with
        | arr xs =>
          dsimp only at hd
          by_cases hall : xs.all isJsonStr = true
          · rw [if_pos hall] at hd
            simp [pure, Except.pure] at hd
            subst hd
            rw [jsonStrNames, List.mem_filterMap] at hn
            obtain ⟨x, hx, hxs⟩ := hn
            cases x with
            | str cn =>
              simp at hxs
              rw [← hxs]
              exact componentNames_known j xs hsub hall hj cn hx
            | null => simp at hxs
            | bool b => simp at hxs
            | int z => simp at hxs
            | num q => simp at hxs
            | arr a2 => simp at hxs
            | obj f2 => simp at hxs
          · rw [if_neg hall] at hd
            simp [pure, Except.pure] at hd
            subst hd
            simp at hn
        | null => simp [pure, Except.pure] at hd; subst hd; simp at hn
        | bool b => simp [pure, Except.pure] at hd; subst hd; simp at hn
        | int z => simp [pure, Except.pure] at hd; subst hd; simp at hn
        | num q => simp [pure, Except.pure] at hd; subst hd; simp at hn
        | str sx => simp [pure, Except.pure] at hd; subst hd; simp at hn
        | obj f2 => simp [pure, Except.pure] at hd; subst hd; simp at hn

/-- `exportComponents` raises no `ValueError` when the formula value has good
components. -/
theorem exportComponents_noVE (fail : String → Option String) (j : Json)
    (hj : goodComponents j = true) :
    isValueError (exportComponents fail initFormulaTools j) = false := by
  rw [exportComponents]
  refine bind_noVE _ _ (pyContainsKey_noVE _ _) ?_
  intro has _
  cases has with
  | false => rw [if_neg (by simp)]; rfl
  | true =>
    rw [if_pos rfl]
    refine bind_noVE _ _ (pySubscript_noVE _ _) ?_
    intro comps hsub
    cases comps with
    | arr xs =>
      dsimp only
      by_cases hall : xs.all isJsonStr = true
      · rw [if_pos hall]
        refine foldlM_noVE _ _ _ ?_
        intro acc x hx
        cases x with
        | str cn =>
          refine bind_noVE2 _ _ ?_ (fun comp => ?_)
          · exact get_formula_noVE fail initFormulaTools cn
              (componentNames_known j xs hsub hall hj cn hx)
          · exact bind_noVE2 _ _ (componentLatex_noVE comp) (fun cl => rfl)
        | null => rfl
        | bool b => rfl
        | int z => rfl
        | num q => rfl
        | arr a2 => rfl
        | obj f2 => rfl
      · rw [if_neg hall]
        refine foldlM_noVE _ _ _ ?_
        intro acc c _
        exact bind_noVE2 _ _ (componentLatex_noVE c) (fun cl => rfl)
    | null => rfl
    | bool b => rfl
    | int z => rfl
    | num q => rfl
    | str s => rfl
    | obj f2 => rfl

/-- `explore_formula` raises `ValueError` exactly for unknown names. -/
theorem explore_formula_VE_iff (fail : String → Option String) (name : String) :
    isValueError (explore_formula fail initFormulaTools name).2 = true ↔
      initFormulaTools.formula_catalog.any (fun p => p.1 = name) = false := by
  by_cases h : initFormulaTools.formula_catalog.any (fun p => p.1 = name) = true
  · rw [explore_formula, if_neg (by simp [h])]
    simp only [h]
    constructor
    · intro hve
      exfalso
      have : isValueError (do
          let formula ← (get_formula fail initFormulaTools name).2
          let components ← exploreComponents fail initFormulaTools formula
          let related ← exploreRelated fail initFormulaTools name
          pure (Json.obj [("formula", formula), ("components", Json.arr components),
                          ("related_formulas", Json.arr related)])) = false := by
        refine bind_noVE _ _ (get_formula_noVE fail initFormulaTools name h) ?_
        intro formula hform
        refine bind_noVE2 _ _ ?_ (fun components => ?_)
        · refine exploreComponents_noVE fail formula ?_
          refine get_formula_good fail name ?_ formula hform
          simp only [List.mem_map]
          obtain ⟨p, hp, hpeq⟩ := List.any_eq_true.mp h
          exact ⟨p, hp, by simpa using hpeq⟩
        · exact bind_noVE2 _ _ (exploreRelated_noVE fail name) (fun related => rfl)
      rw [this] at hve
      exact Bool.false_ne_true hve
    · intro hfalse
      simp [h] at hfalse
  · rw [explore_formula, if_pos h]
    simp only [isValueError]
    constructor
    · intro _
      cases hb : initFormulaTools.formula_catalog.any (fun p => p.1 = name) with
      | true => exact absurd hb h
      | false => rfl
    · intro _
      trivial

/-- `get_formula_dependencies` raises `ValueError` exactly for unknown
names. -/
theorem get_formula_dependencies_VE_iff (fail : String → Option String) (name : String) :
    isValueError (get_formula_dependencies fail initFormulaTools name).2 = true ↔
      initFormulaTools.formula_catalog.any (fun p => p.1 = name) = false := by
  by_cases h : initFormulaTools.formula_catalog.any (fun p => p.1 = name) = true
  · rw [get_formula_dependencies, if_neg (by simp [h])]
    constructor
    · intro hve
      exfalso
      have hmem : name ∈ initFormulaTools.formula_catalog.map Prod.fst := by
        simp only [List.mem_map]
        obtain ⟨p, hp, hpeq⟩ := List.any_eq_true.mp h
        exact ⟨p, hp, by simpa using hpeq⟩
      have : isValueError (do
          let formula ← (get_formula fail initFormulaTools name).2
          let direct ← directComponents formula
          let indirect ← direct.foldlM (fun acc dep => do
            let df ← (get_formula fail initFormulaTools dep).2
            let dc ← directComponents df
            pure (acc ++ dc)) ([] : List String)
          let indirect2 := (dedupFirst indirect).filter (fun n => ¬ direct.contains n)
          pure (Json.obj [("formula", formula),
                          ("direct_dependencies", Json.arr (direct.map Json.str)),
                          ("indirect_dependencies", Json.arr (indirect2.map Json.str))])) = false := by
        refine bind_noVE _ _ (get_formula_noVE fail initFormulaTools name h) ?_
        intro formula hform
        have hgood := get_formula_good fail name hmem formula hform
        refine bind_noVE _ _ (directComponents_noVE formula) ?_
        intro direct hdirect
        refine bind_noVE2 _ _ ?_ (fun indirect => rfl)
        refine foldlM_noVE _ _ _ ?_
        intro acc dep hdep
        refine bind_noVE2 _ _ ?_ (fun df => ?_)
        · exact get_formula_noVE fail initFormulaTools dep
            (directComponents_known formula direct hdirect hgood dep hdep)
        · exact bind_noVE2 _ _ (directComponents_noVE df) (fun dc => rfl)
      rw [this] at hve
      exact Bool.false_ne_true hve
    · intro hfalse
      simp [h] at hfalse
  · rw [get_formula_dependencies, if_pos h]
    simp only [isValueError]
    constructor
    · intro _
      cases hb : initFormulaTools.formula_catalog.any (fun p => p.1 = name) with
      | true => exact absurd hb h
      | false => rfl
    · intro _
      trivial

/-- `export_formula_to_latex` raises `ValueError` exactly for unknown names
(a failed subprocess can make it raise `KeyError`, which is a different
exception). -/
theorem export_formula_to_latex_VE_iff (fail : String → Option String) (name : String) :
    isValueError (export_formula_to_latex fail initFormulaTools name).2 = true ↔
      initFormulaTools.formula_catalog.any (fun p => p.1 = name) = false := by
  by_cases h : initFormulaTools.formula_catalog.any (fun p => p.1 = name) = true
  · rw [export_formula_to_latex, if_neg (by simp [h])]
    constructor
    · intro hve
      exfalso
      have hmem : name ∈ initFormulaTools.formula_catalog.map Prod.fst := by
        simp only [List.mem_map]
        obtain ⟨p, hp, hpeq⟩ := List.any_eq_true.mp h
        exact ⟨p, hp, by simpa using hpeq⟩
      have : isValueError (do
          let formula ← (get_formula fail initFormulaTools name).2
          let nm ← pySubscript formula "name"
          let s1 ← descPart formula (exportPreamble ++ "\\section\x7b" ++ pyStrOf nm ++ "\x7d\n\n")
          let s2 ← latexPart formula s1
          let comps ← exportComponents fail initFormulaTools formula
          pure (s2 ++ comps ++ "\\end\x7bdocument\x7d")) = false := by
        refine bind_noVE _ _ (get_formula_noVE fail initFormulaTools name h) ?_
        intro formula hform
        have hgood := get_formula_good fail name hmem formula hform
        refine bind_noVE2 _ _ (pySubscript_noVE _ _) (fun nm => ?_)
        refine bind_noVE2 _ _ (descPart_noVE _ _) (fun s1 => ?_)
        refine bind_noVE2 _ _ (latexPart_noVE _ _) (fun s2 => ?_)
        exact bind_noVE2 _ _ (exportComponents_noVE fail formula hgood) (fun comps => rfl)
      rw [this] at hve
      exact Bool.false_ne_true hve
    · intro hfalse
      simp [h] at hfalse
  · rw [export_formula_to_latex, if_pos h]
    simp only [isValueError]
    constructor
    · intro _
      cases hb : initFormulaTools.formula_catalog.any (fun p => p.1 = name) with
      | true => exact absurd hb h
      | false => rfl
    · intro _
      trivial

/-- `get_formula` raises `ValueError` exactly for unknown names. -/
theorem get_formula_VE_iff (fail : String → Option String) (name : String) :
    isValueError (get_formula fail initFormulaTools name).2 = true ↔
      initFormulaTools.formula_catalog.any (fun p => p.1 = name) = false := by
  by_cases h : initFormulaTools.formula_catalog.any (fun p => p.1 = name) = true
  · rw [get_formula_noVE fail initFormulaTools name h]
    simp [h]
  · constructor
    · intro _
      cases hb : initFormulaTools.formula_catalog.any (fun p => p.1 = name) with
      | true => exact absurd hb h
      | false => rfl
    · intro _
      rw [get_formula, if_pos h]
      rfl

/-- Comparisons raise only `TypeError`, never `ValueError`. -/
theorem pvalLt_noVE (a b : PVal) : isValueError (pvalLt a b) = false := by
  cases a <;> cases b <;> rfl

/-- The coercion stage raises only `OverflowError` (the caught kinds are
mapped to the default path). -/
theorem coerceStep_noVE (t : PType) (v0 : PVal) :
    isValueError (coerceStep t v0) = false := by
  cases t with
  | int =>
    cases hc : pyInt v0 with
    | ok z => simp [coerceStep, hc, isValueError, pure, Except.pure]
    | error e => cases e <;> simp [coerceStep, hc, isValueError, pure, Except.pure]
  | float =>
    cases hc : pyFloat v0 with
    | ok f => simp [coerceStep, hc, isValueError, pure, Except.pure]
    | error e => cases e <;> simp [coerceStep, hc, isValueError, pure, Except.pure]
  | string => rfl

theorem rangeCheck_noVE (info : ParamSpec) (v : PVal) :
    isValueError (rangeCheck info v) = false := by
  rw [rangeCheck]
  cases hmn : info.min? with
  | none =>
    dsimp only
    simp only [pure_bind]
    rw [if_neg (by simp)]
    cases hmx : info.max? with
    | none => rfl
    | some mx =>
      dsimp only
      refine bind_noVE2 _ _ (pvalLt_noVE mx v) (fun gtMax => ?_)
      cases gtMax with
      | true => rw [if_pos rfl]; rfl
      | false => rw [if_neg (by simp)]; rfl
  | some m =>
    dsimp only
    refine bind_noVE2 _ _ (pvalLt_noVE v m) (fun ltMin => ?_)
    cases ltMin with
    | true => rw [if_pos rfl]; rfl
    | false =>
      rw [if_neg (by simp)]
      cases hmx : info.max? with
      | none => rfl
      | some mx =>
        dsimp only
        refine bind_noVE2 _ _ (pvalLt_noVE mx v) (fun gtMax => ?_)
        cases gtMax with
        | true => rw [if_pos rfl]; rfl
        | false => rw [if_neg (by simp)]; rfl

theorem validateParam_noVE (info : ParamSpec) (given : Option PVal) :
    isValueError (validateParam info given) = false := by
  cases given with
  | none => rfl
  | some v0 =>
    rw [validateParam]
    refine bind_noVE2 _ _ (coerceStep_noVE info.type v0) (fun step => ?_)
    cases step with
    | none => rfl
    | some v => exact rangeCheck_noVE info v

theorem validateAll_noVE (params : List (String × PVal)) :
    ∀ specs, isValueError (validateAll params specs) = false := by
  intro specs
  induction specs with
  | nil => rfl
  | cons p rest ih =>
    rw [validateAll]
    refine bind_noVE2 _ _ (validateParam_noVE _ _) (fun r => ?_)
    exact bind_noVE2 _ _ ih (fun rs => rfl)

/-- For a known name the parameter specs load without error. -/
theorem get_visualization_parameters_ok (name : String)
    (h : available_visualizations.any (fun p => p.1 = name) = true) :
    ∃ specs, get_visualization_parameters available_visualizations name =
      Except.ok specs := by
  obtain ⟨p, hp, hpeq⟩ := List.any_eq_true.mp h
  cases hf : available_visualizations.find? (fun q => q.1 = name) with
  | none =>
    exfalso
    have := List.find?_eq_none.mp hf p hp
    exact this hpeq
  | some pr =>
    exact ⟨pr.2.parameters,
      by simp [get_visualization_parameters, get_visualization_info, hf, Except.map]⟩

/-- `get_visualization_info` raises `ValueError` exactly for unknown names. -/
theorem get_visualization_info_VE_iff (name : String) :
    isValueError (get_visualization_info available_visualizations name) = true ↔
      available_visualizations.any (fun p => p.1 = name) = false := by
  cases hf : available_visualizations.find? (fun q => q.1 = name) with
  | some pr =>
    rw [get_visualization_info]
    rw [hf]
    have hmem := List.mem_of_find?_eq_some hf
    have hpr := List.find?_some hf
    have hany : available_visualizations.any (fun p => p.1 = name) = true :=
      List.any_eq_true.mpr ⟨pr, hmem, hpr⟩
    simp [isValueError, hany]
  | none =>
    rw [get_visualization_info]
    rw [hf]
    have hany : available_visualizations.any (fun p => p.1 = name) = false := by
      rw [List.any_eq_false]
      intro p hp
      exact List.find?_eq_none.mp hf p hp
    simp [isValueError, hany]

/-- `generate_visualization` raises `ValueError` exactly for unknown names
(an uncoercible infinite float still raises `OverflowError`, a different
exception). -/
theorem generate_visualization_VE_iff (run : ProcResult) (name : String)
    (oparams : Option (List (String × PVal))) (showFlag : Bool) :
    isValueError (generate_visualization available_visualizations run name oparams showFlag) = true ↔
      available_visualizations.any (fun p => p.1 = name) = false := by
  by_cases h : available_visualizations.any (fun p => p.1 = name) = true
  · have hnoVE : isValueError (generate_visualization available_visualizations run name oparams showFlag) = false := by
      rw [generate_visualization]
      refine bind_noVE2 _ _ ?_ (fun script => rfl)
      rw [generate_visualization_script, if_neg (by simp [h])]
      dsimp only
      obtain ⟨specs, hspecs⟩ := get_visualization_parameters_ok name h
      have hVP : isValueError
          (validate_parameters available_visualizations name (oparams.getD [])) = false := by
        rw [validate_parameters, hspecs, except_ok_bind]
        exact validateAll_noVE _ _
      exact bind_noVE2 _ _ hVP (fun validation => rfl)
    rw [hnoVE]
    simp [h]
  · have hVE : isValueError (generate_visualization available_visualizations run name oparams showFlag) = true := by
      rw [generate_visualization, generate_visualization_script, if_pos h]
      rfl
    rw [hVE]
    constructor
    · intro _
      cases hb : available_visualizations.any (fun p => p.1 = name) with
      | true => exact absurd hb h
      | false => rfl
    · intro _
      rfl

/-- Key membership via the Boolean `any` the source's `in` test compiles
to. -/
theorem any_key_false_iff {α : Type} (l : List (String × α)) (name : String) :
    l.any (fun p => p.1 = name) = false ↔ name ∉ l.map Prod.fst := by
  rw [List.any_eq_false]
  simp only [List.mem_map, decide_eq_true_eq]
  constructor
  · rintro h ⟨p, hp, hpeq⟩
    exact h p hp hpeq
  · intro h p hp hpeq
    exact h ⟨p, hp, hpeq⟩

/-- Claim C9: the formula operations (`get_formula`, `explore_formula`,
`get_formula_dependencies`, `export_formula_to_latex`) raise `ValueError`
exactly when the name is not one of the six `formula_catalog` keys, and the
visualization operations (`get_visualization_info`,
`generate_visualization`) raise `ValueError` exactly when the name is not
one of the five `available_visualizations` keys — whatever the subprocess
world; for a catalog key the membership check never raises. -/
theorem unknown_names_rejected (fail : String → Option String) (name : String)
    (run : ProcResult) (oparams : Option (List (String × PVal))) (showFlag : Bool) :
    (isValueError (get_formula fail initFormulaTools name).2 = true ↔
      name ∉ initFormulaTools.formula_catalog.map Prod.fst) ∧
    (isValueError (explore_formula fail initFormulaTools name).2 = true ↔
      name ∉ initFormulaTools.formula_catalog.map Prod.fst) ∧
    (isValueError (get_formula_dependencies fail initFormulaTools name).2 = true ↔
      name ∉ initFormulaTools.formula_catalog.map Prod.fst) ∧
    (isValueError (export_formula_to_latex fail initFormulaTools name).2 = true ↔
      name ∉ initFormulaTools.formula_catalog.map Prod.fst) ∧
    (isValueError (get_visualization_info available_visualizations name) = true ↔
      name ∉ available_visualizations.map Prod.fst) ∧
    (isValueError (generate_visualization available_visualizations run name oparams showFlag) = true ↔
      name ∉ available_visualizations.map Prod.fst) ∧
    initFormulaTools.formula_catalog.length = 6 ∧
    available_visualizations.length = 5 :=
  ⟨(get_formula_VE_iff fail name).trans (any_key_false_iff _ name),
   (explore_formula_VE_iff fail name).trans (any_key_false_iff _ name),
   (get_formula_dependencies_VE_iff fail name).trans (any_key_false_iff _ name),
   (export_formula_to_latex_VE_iff fail name).trans (any_key_false_iff _ name),
   (get_visualization_info_VE_iff name).trans (any_key_false_iff _ name),
   (generate_visualization_VE_iff run name oparams showFlag).trans (any_key_false_iff _ name),
   rfl, rfl⟩

/-- `VisualizationTools.validate_parameters` as a state-threading operation:
the instance state (the catalog dict) and the caller-supplied params dict go
in and come back out with the result. -/
def validate_parameters_op (cat : List (String × VisInfo)) (name : String)
    (params : List (String × PVal)) :
    List (String × VisInfo) × List (String × PVal) × Except PyErr (List (String × VRes)) :=
  (cat, params, validate_parameters cat name params)

/-- `VisualizationTools.generate_visualization` as a state-threading
operation. -/
def generate_visualization_op (cat : List (String × VisInfo)) (run : ProcResult)
    (name : String) (oparams : Option (List (String × PVal))) (showFlag : Bool) :
    List (String × VisInfo) × Option (List (String × PVal)) × Except PyErr String :=
  (cat, oparams, generate_visualization cat run name oparams showFlag)

/-- Claim C7: no `FormulaTools` or `VisualizationTools` operation mutates the
`formula_catalog`, `formula_relationships` or `available_visualizations`
dictionaries, nor the caller-supplied params dict — after any call each
equals its value before the call.  Every operation is embedded in
state-threading form, so an assignment into these dictionaries in the source
would show up as a changed first component. -/
theorem config_dicts_immutable (fail : String → Option String) (st : FTState)
    (name query : String) (names : List String) (cat : List (String × VisInfo))
    (params : List (String × PVal)) (oparams : Option (List (String × PVal)))
    (run : ProcResult) (showFlag : Bool) :
    (list_formulas st).1 = st ∧
    (get_formula fail st name).1 = st ∧
    (explore_formula fail st name).1 = st ∧
    (compare_formulas fail st names).1 = st ∧
    (search_formulas fail st query).1 = st ∧
    (get_formula_dependencies fail st name).1 = st ∧
    (export_formula_to_latex fail st name).1 = st ∧
    (validate_parameters_op cat name params).1 = cat ∧
    (validate_parameters_op cat name params).2.1 = params ∧
    (generate_visualization_op cat run name oparams showFlag).1 = cat ∧
    (generate_visualization_op cat run name oparams showFlag).2.1 = oparams := by
  refine ⟨rfl, ?_, ?_, rfl, rfl, ?_, ?_, rfl, rfl, rfl, rfl⟩
  · rw [get_formula]
    split
    · rfl
    · dsimp only
      split <;> rfl
  · rw [explore_formula]
    split <;> rfl
  · rw [get_formula_dependencies]
    split <;> rfl
  · rw [export_formula_to_latex]
    split <;> rfl
